import Mathlib

/-!
# Power-hint dispatcher of `power-845.c`

A shallow embedding of the hint processors of `power-845.c` and the properties
of its mode state machine, handle slots and interaction debounce.

* The file-scope and function-scope `static` variables of the C file are the
  fields of `State`.
* Every function of the C file is a Lean function of the same name that takes
  the state and returns an `Outcome`: the C return value, the state after the
  call, and the calls made to the external collaborators, in order.
* What the C file takes from headers and helper sources that are not part of
  it (`CHECK_HANDLE`, the hint codes, `HINT_HANDLED`/`HINT_NONE`,
  `calc_timespan_us`, the governor and metadata helpers) is a field of
  `Platform`; a theorem states which facts about them it needs.
* What the outside world answers during one invocation (the handle returned by
  the performance client, the clock reading, the governor, file results) is a
  field of `Env`.  No function of the C file calls the same external function
  twice in one invocation, so one answer per external function describes every
  behaviour of the collaborators.
* C `int` values are `Int`; the bitwise operators act on the 32-bit
  twos-complement representation.
-/

namespace Power845

/-! ## C integers -/

/-- Unsigned 32-bit representation of a C `int`. -/
def to_u32 (x : Int) : Nat := (x % 4294967296).toNat

/-- The C `int` with the given unsigned 32-bit representation. -/
def of_u32 (n : Nat) : Int :=
  if n < 2147483648 then (n : Int) else (n : Int) - 4294967296

/-- C `x & y` on `int`. -/
def c_and (x y : Int) : Int := of_u32 (to_u32 x &&& to_u32 y)

/-- C `x | y` on `int`. -/
def c_or (x y : Int) : Int := of_u32 (to_u32 x ||| to_u32 y)

/-- C `~x` on `int`. -/
def c_not (x : Int) : Int := of_u32 (4294967295 - to_u32 x)

/-! ## Data model -/

/-- The C type `struct timespec`. -/
structure Timespec where
  tv_sec : Int
  tv_nsec : Int
deriving DecidableEq, Repr

/-- The C type `struct video_encode_metadata_t` of `metadata-defs.h`. -/
structure video_encode_metadata_t where
  hint_id : Int
  state : Int
deriving DecidableEq, Repr

/-- What a non-null `void* data` points to: `as_int` is what `*((int*)data)`
reads and `as_str` what `(char*)data` reads.  A null pointer is `none`. -/
structure Pointee where
  as_int : Int
  as_str : String
deriving DecidableEq, Repr

/-- The cases of `switch (hint)` in `power_hint_override`; `other` stands for
every `power_hint_t` value without a case label. -/
inductive power_hint_t where
  | POWER_HINT_VIDEO_ENCODE
  | POWER_HINT_SUSTAINED_PERFORMANCE
  | POWER_HINT_VR_MODE
  | POWER_HINT_INTERACTION
  | POWER_HINT_LAUNCH
  | POWER_HINT_LOW_POWER
  | other (code : Int)
deriving DecidableEq, Repr

/-- A call made to an external collaborator, with its arguments and, where the
function returns one, the value it returned. -/
inductive Call where
  | release_request (lock_handle : Int)
  | perf_hint_enable (hint_id duration ret : Int)
  | perf_hint_enable_with_type (hint_id duration type ret : Int)
  | sysfs_write (path s : String) (ret : Int)
  | sys_open (path : String) (ret : Int)
  | sys_write (fd : Int) (buf : String) (ret : Int)
deriving DecidableEq, Repr

/-- What `power-845.c` takes from headers and helper sources outside the file. -/
structure Platform where
  /-- The macro `CHECK_HANDLE(x)`. -/
  CHECK_HANDLE : Int → Bool
  HINT_HANDLED : Int
  HINT_NONE : Int
  SUSTAINED_PERF_HINT : Int
  VR_MODE_HINT : Int
  VR_MODE_SUSTAINED_PERF_HINT : Int
  VIDEO_ENCODE_HINT : Int
  VENDOR_HINT_SCROLL_BOOST : Int
  SCROLL_VERTICAL : Int
  VENDOR_HINT_FIRST_LAUNCH_BOOST : Int
  LAUNCH_BOOST_V1 : Int
  /-- The helper `calc_timespan_us(start, end)`. -/
  calc_timespan_us : Timespec → Timespec → Int
  /-- The helper `is_interactive_governor(governor)`, as a truth value. -/
  is_interactive_governor : String → Bool
  /-- The helper `parse_video_encode_metadata(metadata, &m)`: the return code
  and the struct after the call. -/
  parse_video_encode_metadata :
    String → video_encode_metadata_t → Int × video_encode_metadata_t

/-- The answers of the outside world during one invocation. -/
structure Env where
  /-- The handle `perf_hint_enable(hint_id, duration)` returns. -/
  perf_hint_enable : Int → Int → Int
  /-- The handle `perf_hint_enable_with_type(hint_id, duration, type)` returns. -/
  perf_hint_enable_with_type : Int → Int → Int → Int
  /-- The reading of `clock_gettime(CLOCK_MONOTONIC, _)`. -/
  clock_gettime : Timespec
  /-- The governor `get_scaling_governor` reads; `none` when it returns -1. -/
  get_scaling_governor : Option String
  /-- The status `sysfs_write(path, s)` returns. -/
  sysfs_write : String → String → Int
  /-- The descriptor `open(path, O_RDWR)` returns. -/
  sys_open : String → Int
  /-- The result of `write(fd, buf, strlen(buf))`. -/
  sys_write : Int → String → Int

/-- The `static` variables of `power-845.c`. -/
structure State where
  display_fd : Int
  current_mode : Int
  perfd_mode_handle : Int
  video_encode_handle : Int
  s_previous_boost_timespec : Timespec
  s_previous_duration : Int
  launch_handle : Int
  launch_mode : Int
  init_interactive_hint : Int
deriving DecidableEq, Repr

/-- Return value, state after the call and external calls made, in order. -/
structure Outcome where
  ret : Int
  state : State
  calls : List Call
deriving DecidableEq, Repr

def SYS_DISPLAY_PWR : String := "/sys/kernel/hbtp/display_pwr"
def BATTERY_SAVER_TOGGLE : String := "/sys/module/battery_saver/parameters/enabled"

def kMinInteractiveDuration : Int := 100
def kMaxInteractiveDuration : Int := 5000
def kMaxLaunchDuration : Int := 5000

def NORMAL_MODE : Int := 0
def SUSTAINED_MODE : Int := 1
def VR_MODE : Int := 2
def VR_SUSTAINED_MODE : Int := c_or SUSTAINED_MODE VR_MODE
def INVALID_MODE : Int := 255

/-- The C type `perf_mode_t`. -/
structure perf_mode_t where
  type : Int
  perf_hint_id : Int
deriving DecidableEq, Repr

/-- The table `perf_modes[NUM_PERF_MODES]`. -/
def perf_modes (P : Platform) : List perf_mode_t :=
  [⟨SUSTAINED_MODE, P.SUSTAINED_PERF_HINT⟩,
   ⟨VR_MODE, P.VR_MODE_HINT⟩,
   ⟨VR_SUSTAINED_MODE, P.VR_MODE_SUSTAINED_PERF_HINT⟩]

/-- The values of the `static` variables at process start. -/
def State.init : State where
  display_fd := 0
  current_mode := NORMAL_MODE
  perfd_mode_handle := -1
  video_encode_handle := 0
  s_previous_boost_timespec := ⟨0, 0⟩
  s_previous_duration := 0
  launch_handle := -1
  launch_mode := 0
  init_interactive_hint := 0

/-! ## The functions of `power-845.c` -/

/-- The loop of `get_perfd_hint_id` over the remaining table entries. -/
def get_perfd_hint_id_loop : List perf_mode_t → Int → Int
  | [], _ => 0
  | m :: rest, type =>
    if m.type = type then m.perf_hint_id else get_perfd_hint_id_loop rest type

/-- `get_perfd_hint_id(type)`. -/
def get_perfd_hint_id (P : Platform) (type : Int) : Int :=
  get_perfd_hint_id_loop (perf_modes P) type

/-- `switch_mode(mode)`. -/
def switch_mode (P : Platform) (E : Env) (mode : Int) (s : State) : Outcome :=
  -- release existing mode if any
  let released : State × List Call :=
    if P.CHECK_HANDLE s.perfd_mode_handle then
      ({ s with perfd_mode_handle := -1 }, [Call.release_request s.perfd_mode_handle])
    else (s, [])
  -- switch to a perf mode
  let hint_id := get_perfd_hint_id P mode
  if hint_id ≠ 0 then
    let h := E.perf_hint_enable hint_id 0
    let s2 : State := { released.1 with perfd_mode_handle := h }
    let calls := released.2 ++ [Call.perf_hint_enable hint_id 0 h]
    if ¬ P.CHECK_HANDLE h then ⟨-1, s2, calls⟩ else ⟨0, s2, calls⟩
  else ⟨0, released.1, released.2⟩

/-- `process_perf_hint(data, mode)`. -/
def process_perf_hint (P : Platform) (E : Env) (data : Option Pointee) (mode : Int)
    (s : State) : Outcome :=
  if data.isSome then
    -- enable
    if c_and s.current_mode mode ≠ 0 then ⟨P.HINT_HANDLED, s, []⟩
    else
      let r := switch_mode P E (c_or s.current_mode mode) s
      if 0 ≠ r.ret then ⟨P.HINT_NONE, r.state, r.calls⟩
      else
        ⟨P.HINT_HANDLED,
          { r.state with current_mode := c_or r.state.current_mode mode }, r.calls⟩
  else
    -- disable
    if ¬ (c_and s.current_mode mode ≠ 0) then ⟨P.HINT_HANDLED, s, []⟩
    else
      let r := switch_mode P E (c_and s.current_mode (c_not mode)) s
      if 0 ≠ r.ret then ⟨P.HINT_NONE, r.state, r.calls⟩
      else
        ⟨P.HINT_HANDLED,
          { r.state with current_mode := c_and r.state.current_mode (c_not mode) }, r.calls⟩

/-- `process_video_encode_hint(metadata)`. -/
def process_video_encode_hint (P : Platform) (E : Env) (metadata : Option Pointee)
    (s : State) : Outcome :=
  match metadata with
  | none => ⟨P.HINT_NONE, s, []⟩
  | some md =>
    match E.get_scaling_governor with
    | none => ⟨P.HINT_NONE, s, []⟩
    | some governor =>
      let parsed := P.parse_video_encode_metadata md.as_str ⟨0, -1⟩
      if parsed.1 = -1 then ⟨P.HINT_NONE, s, []⟩
      else if parsed.2.state = 1 then
        if P.is_interactive_governor governor then
          let h := E.perf_hint_enable P.VIDEO_ENCODE_HINT 0
          ⟨P.HINT_HANDLED, { s with video_encode_handle := h },
            [Call.perf_hint_enable P.VIDEO_ENCODE_HINT 0 h]⟩
        else ⟨P.HINT_NONE, s, []⟩
      else if parsed.2.state = 0 then
        if P.is_interactive_governor governor then
          ⟨P.HINT_HANDLED, s, [Call.release_request s.video_encode_handle]⟩
        else ⟨P.HINT_NONE, s, []⟩
      else ⟨P.HINT_NONE, s, []⟩

/-- The value of the local `duration` of `process_interaction_hint` when the
clock is read. -/
def interaction_duration (data : Option Pointee) : Int :=
  match data with
  | none => kMinInteractiveDuration
  | some p =>
    let input_duration := p.as_int
    if input_duration > kMinInteractiveDuration then
      (if input_duration > kMaxInteractiveDuration then kMaxInteractiveDuration
       else input_duration)
    else kMinInteractiveDuration

/-- `process_interaction_hint(data)`; the function returns `void`. -/
def process_interaction_hint (P : Platform) (E : Env) (data : Option Pointee)
    (s : State) : State × List Call :=
  if s.current_mode ≠ NORMAL_MODE then (s, [])
  else
    let duration := interaction_duration data
    let cur_boost_timespec := E.clock_gettime
    let elapsed_time := P.calc_timespan_us s.s_previous_boost_timespec cur_boost_timespec
    if elapsed_time < 250000 ∧ duration ≤ 750 then (s, [])
    else
      let h := E.perf_hint_enable_with_type P.VENDOR_HINT_SCROLL_BOOST duration P.SCROLL_VERTICAL
      ({ s with s_previous_boost_timespec := cur_boost_timespec,
                s_previous_duration := duration },
       [Call.perf_hint_enable_with_type P.VENDOR_HINT_SCROLL_BOOST duration P.SCROLL_VERTICAL h])

/-- `process_activity_launch_hint(data)`. -/
def process_activity_launch_hint (P : Platform) (E : Env) (data : Option Pointee)
    (s : State) : Outcome :=
  if data.isNone then
    -- release lock early if launch has finished
    if P.CHECK_HANDLE s.launch_handle then
      ⟨P.HINT_HANDLED, { s with launch_handle := -1, launch_mode := 0 },
        [Call.release_request s.launch_handle]⟩
    else ⟨P.HINT_HANDLED, { s with launch_mode := 0 }, []⟩
  else if s.current_mode ≠ NORMAL_MODE then ⟨P.HINT_HANDLED, s, []⟩
  else if s.launch_mode = 0 then
    let h := E.perf_hint_enable_with_type P.VENDOR_HINT_FIRST_LAUNCH_BOOST kMaxLaunchDuration
      P.LAUNCH_BOOST_V1
    let call := Call.perf_hint_enable_with_type P.VENDOR_HINT_FIRST_LAUNCH_BOOST
      kMaxLaunchDuration P.LAUNCH_BOOST_V1 h
    if ¬ P.CHECK_HANDLE h then ⟨P.HINT_NONE, { s with launch_handle := h }, [call]⟩
    else ⟨P.HINT_HANDLED, { s with launch_handle := h, launch_mode := 1 }, [call]⟩
  else ⟨P.HINT_HANDLED, s, []⟩

/-- `power_hint_override(hint, data)`. -/
def power_hint_override (P : Platform) (E : Env) (hint : power_hint_t)
    (data : Option Pointee) (s : State) : Outcome :=
  match hint with
  | .POWER_HINT_VIDEO_ENCODE => process_video_encode_hint P E data s
  | .POWER_HINT_SUSTAINED_PERFORMANCE => process_perf_hint P E data SUSTAINED_MODE s
  | .POWER_HINT_VR_MODE => process_perf_hint P E data VR_MODE s
  | .POWER_HINT_INTERACTION =>
    let r := process_interaction_hint P E data s
    ⟨P.HINT_HANDLED, r.1, r.2⟩
  | .POWER_HINT_LAUNCH => process_activity_launch_hint P E data s
  | .POWER_HINT_LOW_POWER =>
    let v := if data.isSome then "Y" else "N"
    let rc := E.sysfs_write BATTERY_SAVER_TOGGLE v
    ⟨rc, s, [Call.sysfs_write BATTERY_SAVER_TOGGLE v rc]⟩
  | .other _ => ⟨P.HINT_NONE, s, []⟩

/-- The function `set_interactive_override(on)`; the parameter `on` is `on_val`
here.  The answer of `E.sys_open` or
`E.sys_write` is the value of the whole `TEMP_FAILURE_RETRY` expression. -/
def set_interactive_override (P : Platform) (E : Env) (on_val : Int) (s : State) :
    Outcome :=
  if s.init_interactive_hint = 0 then
    -- First time the display is turned off
    let fd := E.sys_open SYS_DISPLAY_PWR
    if fd < 0 then
      ⟨P.HINT_HANDLED, { s with display_fd := fd }, [Call.sys_open SYS_DISPLAY_PWR fd]⟩
    else
      ⟨P.HINT_HANDLED, { s with display_fd := fd, init_interactive_hint := 1 },
        [Call.sys_open SYS_DISPLAY_PWR fd]⟩
  else if on_val = 0 then
    -- Display off
    let rc := E.sys_write s.display_fd "0"
    ⟨P.HINT_HANDLED, s, [Call.sys_write s.display_fd "0" rc]⟩
  else
    -- Display on
    let rc := E.sys_write s.display_fd "1"
    ⟨P.HINT_HANDLED, s, [Call.sys_write s.display_fd "1" rc]⟩

/-! ## Sequences of calls -/

/-- One invocation of `switch_mode`: its argument and the answers of the
outside world during it. -/
structure switch_call where
  mode : Int
  env : Env

/-- One invocation of `process_perf_hint`: its arguments and the answers of the
outside world during it. -/
structure perf_hint_call where
  data : Option Pointee
  mode : Int
  env : Env

/-- The state reached by a sequence of invocations, every external call made
so far in order, and the invocations so far with their return values. -/
structure History (κ : Type) where
  state : State
  trace : List Call
  log : List (κ × Int)

/-- One more `switch_mode` invocation. -/
def switch_mode_step (P : Platform) (h : History switch_call) (c : switch_call) :
    History switch_call :=
  let o := switch_mode P c.env c.mode h.state
  ⟨o.state, h.trace ++ o.calls, h.log ++ [(c, o.ret)]⟩

/-- A sequence of `switch_mode` invocations from the state at process start. -/
def run_switch_mode (P : Platform) (cs : List switch_call) : History switch_call :=
  cs.foldl (switch_mode_step P) ⟨State.init, [], []⟩

/-- One more `process_perf_hint` invocation. -/
def perf_hint_step (P : Platform) (h : History perf_hint_call) (c : perf_hint_call) :
    History perf_hint_call :=
  let o := process_perf_hint P c.env c.data c.mode h.state
  ⟨o.state, h.trace ++ o.calls, h.log ++ [(c, o.ret)]⟩

/-- A sequence of `process_perf_hint` invocations from the state at process
start. -/
def run_perf_hints (P : Platform) (cs : List perf_hint_call) : History perf_hint_call :=
  cs.foldl (perf_hint_step P) ⟨State.init, [], []⟩

/-! ## Vocabulary of the properties -/

/-- Whether the most recent invocation for `flag` that returned `HINT_HANDLED`
was an enable request (non-null `data`); false when there was none. -/
def flag_enabled (P : Platform) (flag : Int) (log : List (perf_hint_call × Int)) : Bool :=
  log.foldl
    (fun b e => if e.1.mode = flag ∧ e.2 = P.HINT_HANDLED then e.1.data.isSome else b)
    false

/-- The valid handles that `perf_hint_enable` returned and `release_request`
has not yet been given, after the calls of a trace, when `held` were
outstanding before it. -/
def outstanding_from (P : Platform) : List Int → List Call → List Int
  | held, [] => held
  | held, Call.release_request h :: tr => outstanding_from P (held.erase h) tr
  | held, Call.perf_hint_enable _ _ h :: tr =>
    outstanding_from P (if P.CHECK_HANDLE h then held ++ [h] else held) tr
  | held, _ :: tr => outstanding_from P held tr

/-- The valid handles acquired and not yet released after a trace. -/
def outstanding (P : Platform) (tr : List Call) : List Int := outstanding_from P [] tr

/-- The mode handle slot seen as a set of outstanding handles. -/
def slot_handles (P : Platform) (s : State) : List Int :=
  if P.CHECK_HANDLE s.perfd_mode_handle then [s.perfd_mode_handle] else []

/-! ## A platform and environments for evaluation -/

/-- A platform on which the definitions are evaluated: a handle is valid when
it is positive, `HINT_HANDLED` is 0 and `HINT_NONE` is -1, the hint codes are
non-zero and distinct, and `calc_timespan_us` is the difference of two
timestamps in microseconds. -/
def sample_platform : Platform where
  CHECK_HANDLE := fun x => decide (0 < x)
  HINT_HANDLED := 0
  HINT_NONE := -1
  SUSTAINED_PERF_HINT := 4614
  VR_MODE_HINT := 4615
  VR_MODE_SUSTAINED_PERF_HINT := 4865
  VIDEO_ENCODE_HINT := 4611
  VENDOR_HINT_SCROLL_BOOST := 4224
  SCROLL_VERTICAL := 1
  VENDOR_HINT_FIRST_LAUNCH_BOOST := 4225
  LAUNCH_BOOST_V1 := 1
  calc_timespan_us := fun t0 t1 =>
    (t1.tv_sec - t0.tv_sec) * 1000000 + (t1.tv_nsec - t0.tv_nsec).tdiv 1000
  is_interactive_governor := fun g => g == "interactive" || g == "schedutil"
  parse_video_encode_metadata := fun md m =>
    if md == "state=1" then (0, { m with state := 1 })
    else if md == "state=0" then (0, { m with state := 0 })
    else (-1, m)

/-- An environment whose performance client returns `handle` to every acquire
and whose clock reads `now`. -/
def sample_env (handle : Int) (now : Timespec) : Env where
  perf_hint_enable := fun _ _ => handle
  perf_hint_enable_with_type := fun _ _ _ => handle
  clock_gettime := now
  get_scaling_governor := some "interactive"
  sysfs_write := fun _ _ => 0
  sys_open := fun _ => 3
  sys_write := fun _ _ => 1

/-- A non-null payload that reads as the integer `n`. -/
def int_payload (n : Int) : Option Pointee := some ⟨n, ""⟩

/-! ## Vocabulary of the proofs and sample inputs -/

/-- The mode `process_perf_hint` passes to `switch_mode`: `current_mode | mode`
for an enable request and `current_mode & ~mode` for a disable request. -/
def switch_target (data : Option Pointee) (mode : Int) (s : State) : Int :=
  if data.isSome then c_or s.current_mode mode else c_and s.current_mode (c_not mode)

/-- The bitwise OR of the flags that are enabled: `SUSTAINED_MODE` when `sus`
and `VR_MODE` when `vr`. -/
def mode_of (sus vr : Bool) : Int :=
  c_or (if sus then SUSTAINED_MODE else 0) (if vr then VR_MODE else 0)

/-- The discipline of a single handle slot along a trace that starts with the
handles `held` outstanding: a release is given the one outstanding handle, and
an acquire is made only while no handle is outstanding. -/
def single_slot_trace (P : Platform) : List Int → List Call → Prop
  | _, [] => True
  | held, Call.release_request h :: tr => held = [h] ∧ single_slot_trace P [] tr
  | held, Call.perf_hint_enable _ _ h :: tr =>
    held = [] ∧ single_slot_trace P (if P.CHECK_HANDLE h then [h] else []) tr
  | held, _ :: tr => single_slot_trace P held tr

/-- What holds of the mode handle slot after a sequence of mode hints. -/
def mode_slot_invariant (P : Platform) (cs : List perf_hint_call)
    (H : History perf_hint_call) : Prop :=
  (H.state.current_mode = 0 ∨ H.state.current_mode = 1 ∨ H.state.current_mode = 2 ∨
    H.state.current_mode = 3) ∧
  (H.state.current_mode = 0 → P.CHECK_HANDLE H.state.perfd_mode_handle = false) ∧
  (P.CHECK_HANDLE H.state.perfd_mode_handle = true →
    H.trace.getLast? = some (Call.perf_hint_enable (get_perfd_hint_id P H.state.current_mode) 0
      H.state.perfd_mode_handle)) ∧
  (H.state.current_mode ≠ 0 → P.CHECK_HANDLE H.state.perfd_mode_handle = false →
    ∃ c ∈ cs, ∃ hint, H.state.perfd_mode_handle = c.env.perf_hint_enable hint 0 ∧
      H.trace.getLast? = some (Call.perf_hint_enable hint 0 H.state.perfd_mode_handle))

/-- The request `process_interaction_hint` issues for the duration `d`, with the
handle the client returns to it. -/
def scroll_boost (P : Platform) (E : Env) (d : Int) : Call :=
  Call.perf_hint_enable_with_type P.VENDOR_HINT_SCROLL_BOOST d P.SCROLL_VERTICAL
    (E.perf_hint_enable_with_type P.VENDOR_HINT_SCROLL_BOOST d P.SCROLL_VERTICAL)

/-- The state at process start after SUSTAINED was enabled with handle 5. -/
def sustained_state : State := { State.init with current_mode := 1, perfd_mode_handle := 5 }

/-- A state at process start whose last boost was at 10 s. -/
def boosted_at_10s : State := { State.init with s_previous_boost_timespec := ⟨10, 0⟩ }

/-- An enable of SUSTAINED answered with handle 5, then an enable of VR
answered with handle `h`. -/
def sustained_then_vr (h : Int) : List perf_hint_call :=
  [⟨int_payload 1, SUSTAINED_MODE, sample_env 5 ⟨1, 0⟩⟩,
   ⟨int_payload 1, VR_MODE, sample_env h ⟨2, 0⟩⟩]

/-- A `switch_mode(SUSTAINED_MODE)` answered with handle 5, then a
`switch_mode(VR_SUSTAINED_MODE)` answered with handle 6. -/
def two_switches : List switch_call :=
  [⟨SUSTAINED_MODE, sample_env 5 ⟨1, 0⟩⟩, ⟨VR_SUSTAINED_MODE, sample_env 6 ⟨2, 0⟩⟩]

/-! ## Sequences of dispatched hints and launch handles -/

/-- One invocation of `power_hint_override`: its arguments and the answers of
the outside world during it. -/
structure hint_call where
  hint : power_hint_t
  data : Option Pointee
  env : Env

/-- The state reached by a sequence of `power_hint_override` invocations, every
external call made so far in order, and the calls made so far by the
invocations for `POWER_HINT_LAUNCH`. -/
structure Dispatch where
  state : State
  trace : List Call
  launch_trace : List Call

/-- One more `power_hint_override` invocation. -/
def dispatch_step (P : Platform) (h : Dispatch) (c : hint_call) : Dispatch :=
  let o := power_hint_override P c.env c.hint c.data h.state
  ⟨o.state, h.trace ++ o.calls,
    if c.hint = power_hint_t.POWER_HINT_LAUNCH then h.launch_trace ++ o.calls
    else h.launch_trace⟩

/-- A sequence of `power_hint_override` invocations from the state at process
start. -/
def run_hints (P : Platform) (cs : List hint_call) : Dispatch :=
  cs.foldl (dispatch_step P) ⟨State.init, [], []⟩

/-- The valid handles that `perf_hint_enable_with_type` returned and
`release_request` has not yet been given, after the calls of a trace, when
`held` were outstanding before it. -/
def launch_outstanding_from (P : Platform) : List Int → List Call → List Int
  | held, [] => held
  | held, Call.release_request h :: tr => launch_outstanding_from P (held.erase h) tr
  | held, Call.perf_hint_enable_with_type _ _ _ h :: tr =>
    launch_outstanding_from P (if P.CHECK_HANDLE h then held ++ [h] else held) tr
  | held, _ :: tr => launch_outstanding_from P held tr

/-- The valid launch handles acquired and not yet released after a trace. -/
def launch_outstanding (P : Platform) (tr : List Call) : List Int :=
  launch_outstanding_from P [] tr

/-- The launch handle slot seen as a set of outstanding handles. -/
def launch_slot_handles (P : Platform) (s : State) : List Int :=
  if P.CHECK_HANDLE s.launch_handle then [s.launch_handle] else []

/-- The discipline of the launch handle slot along a trace that starts with
the handles `held` outstanding: a release is given the one outstanding handle,
and an acquire is made only while no handle is outstanding. -/
def launch_slot_trace (P : Platform) : List Int → List Call → Prop
  | _, [] => True
  | held, Call.release_request h :: tr => held = [h] ∧ launch_slot_trace P [] tr
  | held, Call.perf_hint_enable_with_type _ _ _ h :: tr =>
    held = [] ∧ launch_slot_trace P (if P.CHECK_HANDLE h then [h] else []) tr
  | held, _ :: tr => launch_slot_trace P held tr

/-- The request `process_activity_launch_hint` issues, with the handle the
client returns to it. -/
def launch_boost (P : Platform) (E : Env) : Call :=
  Call.perf_hint_enable_with_type P.VENDOR_HINT_FIRST_LAUNCH_BOOST kMaxLaunchDuration
    P.LAUNCH_BOOST_V1
    (E.perf_hint_enable_with_type P.VENDOR_HINT_FIRST_LAUNCH_BOOST kMaxLaunchDuration
      P.LAUNCH_BOOST_V1)

/-- An environment whose governor read answers `governor` and whose
performance client returns `handle` to every acquire. -/
def sample_env_governor (governor : Option String) (handle : Int) : Env where
  perf_hint_enable := fun _ _ => handle
  perf_hint_enable_with_type := fun _ _ _ => handle
  clock_gettime := ⟨1, 0⟩
  get_scaling_governor := governor
  sysfs_write := fun _ _ => 0
  sys_open := fun _ => 3
  sys_write := fun _ _ => 1

/-- A non-null payload that reads as the string `str`. -/
def str_payload (str : String) : Option Pointee := some ⟨0, str⟩

/-- The state at process start with a launch boost in flight on handle 9. -/
def launching_state : State := { State.init with launch_handle := 9, launch_mode := 1 }

/-- The state at process start after the display-power file was opened as
descriptor 3. -/
def display_opened_state : State :=
  { State.init with display_fd := 3, init_interactive_hint := 1 }

/-- A launch-start hint answered with handle `h1`, then a launch-start hint
answered with handle `h2`. -/
def two_launch_starts (h1 h2 : Int) : List hint_call :=
  [⟨power_hint_t.POWER_HINT_LAUNCH, int_payload 1, sample_env h1 ⟨1, 0⟩⟩,
   ⟨power_hint_t.POWER_HINT_LAUNCH, int_payload 1, sample_env h2 ⟨2, 0⟩⟩]

/-- Two video-encode start hints answered with handles 5 and 6, then a stop
hint, all under the governor `interactive`. -/
def two_encode_starts_then_stop : List hint_call :=
  [⟨power_hint_t.POWER_HINT_VIDEO_ENCODE, str_payload "state=1", sample_env 5 ⟨1, 0⟩⟩,
   ⟨power_hint_t.POWER_HINT_VIDEO_ENCODE, str_payload "state=1", sample_env 6 ⟨2, 0⟩⟩,
   ⟨power_hint_t.POWER_HINT_VIDEO_ENCODE, str_payload "state=0", sample_env 7 ⟨3, 0⟩⟩]

/-! ## Lemmas on the mode table and `switch_mode` -/

theorem VR_SUSTAINED_MODE_eq : VR_SUSTAINED_MODE = 3 := by decide

theorem get_perfd_hint_id_sustained (P : Platform) :
    get_perfd_hint_id P 1 = P.SUSTAINED_PERF_HINT := by
  simp [get_perfd_hint_id, perf_modes, get_perfd_hint_id_loop, SUSTAINED_MODE]

theorem get_perfd_hint_id_vr (P : Platform) :
    get_perfd_hint_id P 2 = P.VR_MODE_HINT := by
  simp [get_perfd_hint_id, perf_modes, get_perfd_hint_id_loop, SUSTAINED_MODE, VR_MODE]

theorem get_perfd_hint_id_vr_sustained (P : Platform) :
    get_perfd_hint_id P 3 = P.VR_MODE_SUSTAINED_PERF_HINT := by
  simp [get_perfd_hint_id, perf_modes, get_perfd_hint_id_loop, SUSTAINED_MODE, VR_MODE,
    VR_SUSTAINED_MODE_eq]

theorem get_perfd_hint_id_other (P : Platform) (m : Int) (h1 : m ≠ 1) (h2 : m ≠ 2)
    (h3 : m ≠ 3) : get_perfd_hint_id P m = 0 := by
  simp [get_perfd_hint_id, perf_modes, get_perfd_hint_id_loop, SUSTAINED_MODE, VR_MODE,
    VR_SUSTAINED_MODE_eq, Ne.symm h1, Ne.symm h2, Ne.symm h3]

theorem get_perfd_hint_id_normal (P : Platform) : get_perfd_hint_id P 0 = 0 :=
  get_perfd_hint_id_other P 0 (by decide) (by decide) (by decide)

theorem switch_mode_current_mode (P : Platform) (E : Env) (mode : Int) (s : State) :
    (switch_mode P E mode s).state.current_mode = s.current_mode := by
  unfold switch_mode
  by_cases hv : P.CHECK_HANDLE s.perfd_mode_handle = true <;>
  by_cases hh : get_perfd_hint_id P mode = 0 <;>
  by_cases hr : P.CHECK_HANDLE (E.perf_hint_enable (get_perfd_hint_id P mode) 0) = true <;>
  simp [hv, hh, hr]

theorem switch_mode_ret (P : Platform) (E : Env) (mode : Int) (s : State) :
    (switch_mode P E mode s).ret =
      if get_perfd_hint_id P mode ≠ 0 ∧
          P.CHECK_HANDLE (E.perf_hint_enable (get_perfd_hint_id P mode) 0) = false
      then -1 else 0 := by
  unfold switch_mode
  by_cases hh : get_perfd_hint_id P mode = 0 <;>
  by_cases hr : P.CHECK_HANDLE (E.perf_hint_enable (get_perfd_hint_id P mode) 0) = true <;>
  simp [hh, hr]

theorem switch_mode_eq (P : Platform) (E : Env) (mode : Int) (s : State) :
    switch_mode P E mode s =
      ⟨if get_perfd_hint_id P mode ≠ 0 ∧
          P.CHECK_HANDLE (E.perf_hint_enable (get_perfd_hint_id P mode) 0) = false
        then -1 else 0,
       { s with perfd_mode_handle :=
          if get_perfd_hint_id P mode ≠ 0 then E.perf_hint_enable (get_perfd_hint_id P mode) 0
          else if P.CHECK_HANDLE s.perfd_mode_handle = true then -1 else s.perfd_mode_handle },
       (if P.CHECK_HANDLE s.perfd_mode_handle = true
          then [Call.release_request s.perfd_mode_handle] else []) ++
       (if get_perfd_hint_id P mode ≠ 0
          then [Call.perf_hint_enable (get_perfd_hint_id P mode) 0
                  (E.perf_hint_enable (get_perfd_hint_id P mode) 0)]
          else [])⟩ := by
  unfold switch_mode
  by_cases hv : P.CHECK_HANDLE s.perfd_mode_handle = true <;>
  by_cases hh : get_perfd_hint_id P mode = 0 <;>
  by_cases hr : P.CHECK_HANDLE (E.perf_hint_enable (get_perfd_hint_id P mode) 0) = true <;>
  simp [hv, hh, hr]

theorem switch_mode_depends_on_slot (P : Platform) (E : Env) (mode : Int) (s t : State)
    (h : s.perfd_mode_handle = t.perfd_mode_handle) :
    (switch_mode P E mode s).calls = (switch_mode P E mode t).calls ∧
    (switch_mode P E mode s).state.perfd_mode_handle =
      (switch_mode P E mode t).state.perfd_mode_handle := by
  simp [switch_mode_eq, h]

/-! ## Lemmas on `process_perf_hint` and its sequences -/

theorem process_perf_hint_cases (P : Platform) (E : Env) (data : Option Pointee) (mode : Int)
    (s : State) :
    (((data.isSome = true ∧ c_and s.current_mode mode ≠ 0) ∨
        (data.isSome = false ∧ c_and s.current_mode mode = 0)) ∧
      process_perf_hint P E data mode s = ⟨P.HINT_HANDLED, s, []⟩) ∨
    (((data.isSome = true ∧ c_and s.current_mode mode = 0) ∨
        (data.isSome = false ∧ c_and s.current_mode mode ≠ 0)) ∧
      (switch_mode P E (switch_target data mode s) s).ret ≠ 0 ∧
      process_perf_hint P E data mode s =
        ⟨P.HINT_NONE, (switch_mode P E (switch_target data mode s) s).state,
          (switch_mode P E (switch_target data mode s) s).calls⟩) ∨
    (((data.isSome = true ∧ c_and s.current_mode mode = 0) ∨
        (data.isSome = false ∧ c_and s.current_mode mode ≠ 0)) ∧
      (switch_mode P E (switch_target data mode s) s).ret = 0 ∧
      process_perf_hint P E data mode s =
        ⟨P.HINT_HANDLED,
          { (switch_mode P E (switch_target data mode s) s).state with
            current_mode := switch_target data mode s },
          (switch_mode P E (switch_target data mode s) s).calls⟩) := by
  have hcm := fun m => switch_mode_current_mode P E m s
  by_cases hd : data.isSome = true
  · have ht : switch_target data mode s = c_or s.current_mode mode := by
      simp [switch_target, hd]
    rw [ht]
    by_cases hb : c_and s.current_mode mode = 0
    · by_cases hr : (switch_mode P E (c_or s.current_mode mode) s).ret = 0
      · right; right
        refine ⟨Or.inl ⟨hd, hb⟩, hr, ?_⟩
        simp [process_perf_hint, hd, hb, hr, hcm]
      · right; left
        refine ⟨Or.inl ⟨hd, hb⟩, hr, ?_⟩
        have hr2 : ¬ (0 = (switch_mode P E (c_or s.current_mode mode) s).ret) :=
          fun h => hr h.symm
        simp [process_perf_hint, hd, hb, hr2]
    · left
      refine ⟨Or.inl ⟨hd, hb⟩, ?_⟩
      simp [process_perf_hint, hd, hb]
  · have hd2 : data.isSome = false := by simpa using hd
    have ht : switch_target data mode s = c_and s.current_mode (c_not mode) := by
      simp [switch_target, hd2]
    rw [ht]
    by_cases hb : c_and s.current_mode mode = 0
    · left
      refine ⟨Or.inr ⟨hd2, hb⟩, ?_⟩
      simp [process_perf_hint, hd2, hb]
    · by_cases hr : (switch_mode P E (c_and s.current_mode (c_not mode)) s).ret = 0
      · right; right
        refine ⟨Or.inr ⟨hd2, hb⟩, hr, ?_⟩
        simp [process_perf_hint, hd2, hb, hr, hcm]
      · right; left
        refine ⟨Or.inr ⟨hd2, hb⟩, hr, ?_⟩
        have hr2 : ¬ (0 = (switch_mode P E (c_and s.current_mode (c_not mode)) s).ret) :=
          fun h => hr h.symm
        simp [process_perf_hint, hd2, hb, hr2]

theorem run_perf_hints_snoc (P : Platform) (cs : List perf_hint_call) (c : perf_hint_call) :
    run_perf_hints P (cs ++ [c]) = perf_hint_step P (run_perf_hints P cs) c := by
  simp [run_perf_hints, List.foldl_append]

theorem run_switch_mode_snoc (P : Platform) (cs : List switch_call) (c : switch_call) :
    run_switch_mode P (cs ++ [c]) = switch_mode_step P (run_switch_mode P cs) c := by
  simp [run_switch_mode, List.foldl_append]

theorem switch_target_values (data : Option Pointee) (mode : Int) (s : State)
    (hm : mode = SUSTAINED_MODE ∨ mode = VR_MODE)
    (hcm : s.current_mode = 0 ∨ s.current_mode = 1 ∨ s.current_mode = 2 ∨ s.current_mode = 3) :
    switch_target data mode s = 0 ∨ switch_target data mode s = 1 ∨
      switch_target data mode s = 2 ∨ switch_target data mode s = 3 := by
  unfold switch_target
  rcases hm with rfl | rfl <;> rcases hcm with h | h | h | h <;> rw [h] <;>
    cases data.isSome <;> decide

theorem mode_of_bits (b1 b2 : Bool) :
    c_and (mode_of b1 b2) 1 = (if b1 then 1 else 0) ∧
    c_and (mode_of b1 b2) 2 = (if b2 then 2 else 0) ∧
    c_or (mode_of b1 b2) 1 = mode_of true b2 ∧
    c_or (mode_of b1 b2) 2 = mode_of b1 true ∧
    c_and (mode_of b1 b2) (c_not 1) = mode_of false b2 ∧
    c_and (mode_of b1 b2) (c_not 2) = mode_of b1 false := by
  cases b1 <;> cases b2 <;> decide

theorem mode_of_values (b1 b2 : Bool) :
    mode_of b1 b2 = 0 ∨ mode_of b1 b2 = 1 ∨ mode_of b1 b2 = 2 ∨ mode_of b1 b2 = 3 := by
  cases b1 <;> cases b2 <;> decide

theorem flag_enabled_snoc (P : Platform) (flag : Int) (log : List (perf_hint_call × Int))
    (c : perf_hint_call) (r : Int) :
    flag_enabled P flag (log ++ [(c, r)]) =
      if c.mode = flag ∧ r = P.HINT_HANDLED then c.data.isSome else flag_enabled P flag log := by
  simp [flag_enabled, List.foldl_append]

theorem perf_hint_sustained_step (P : Platform) (hne : P.HINT_HANDLED ≠ P.HINT_NONE) (E : Env)
    (data : Option Pointee) (s : State) (b1 b2 : Bool) (hcm : s.current_mode = mode_of b1 b2) :
    (process_perf_hint P E data 1 s).state.current_mode =
      mode_of (if (process_perf_hint P E data 1 s).ret = P.HINT_HANDLED then data.isSome else b1)
        b2 := by
  obtain ⟨hb1, -, hs1, -, hc1, -⟩ := mode_of_bits b1 b2
  rcases process_perf_hint_cases P E data 1 s with ⟨hsat, he⟩ | ⟨-, -, he⟩ | ⟨hneed, -, he⟩
  · rw [he]
    simp only [if_true]
    rw [hcm, hb1] at hsat
    rcases hsat with ⟨hd, hb⟩ | ⟨hd, hb⟩
    · cases b1 <;> simp_all
    · cases b1 <;> simp_all
  · rw [he]
    simp [Ne.symm hne, switch_mode_current_mode, hcm]
  · rw [he]
    simp only [if_true]
    rw [hcm, hb1] at hneed
    rcases hneed with ⟨hd, hb⟩ | ⟨hd, hb⟩
    · simp [switch_target, hd, hcm, hs1]
    · simp [switch_target, hd, hcm, hc1]

theorem perf_hint_vr_step (P : Platform) (hne : P.HINT_HANDLED ≠ P.HINT_NONE) (E : Env)
    (data : Option Pointee) (s : State) (b1 b2 : Bool) (hcm : s.current_mode = mode_of b1 b2) :
    (process_perf_hint P E data 2 s).state.current_mode =
      mode_of b1
        (if (process_perf_hint P E data 2 s).ret = P.HINT_HANDLED then data.isSome else b2) := by
  obtain ⟨-, hb2, -, hs2, -, hc2⟩ := mode_of_bits b1 b2
  rcases process_perf_hint_cases P E data 2 s with ⟨hsat, he⟩ | ⟨-, -, he⟩ | ⟨hneed, -, he⟩
  · rw [he]
    simp only [if_true]
    rw [hcm, hb2] at hsat
    rcases hsat with ⟨hd, hb⟩ | ⟨hd, hb⟩
    · cases b2 <;> simp_all
    · cases b2 <;> simp_all
  · rw [he]
    simp [Ne.symm hne, switch_mode_current_mode, hcm]
  · rw [he]
    simp only [if_true]
    rw [hcm, hb2] at hneed
    rcases hneed with ⟨hd, hb⟩ | ⟨hd, hb⟩
    · simp [switch_target, hd, hcm, hs2]
    · simp [switch_target, hd, hcm, hc2]

theorem getLast_append_acquire (tr rel : List Call) (c : Call) :
    (tr ++ (rel ++ [c])).getLast? = some c := by
  rw [← List.append_assoc]
  simp

theorem run_perf_hints_mode_slot (P : Platform) (hinit : P.CHECK_HANDLE (-1) = false)
    (h1 : P.SUSTAINED_PERF_HINT ≠ 0) (h2 : P.VR_MODE_HINT ≠ 0)
    (h3 : P.VR_MODE_SUSTAINED_PERF_HINT ≠ 0) (cs : List perf_hint_call)
    (hflags : ∀ c ∈ cs, c.mode = SUSTAINED_MODE ∨ c.mode = VR_MODE) :
    mode_slot_invariant P cs (run_perf_hints P cs) := by
  induction cs using List.reverseRecOn with
  | nil =>
    refine ⟨Or.inl rfl, fun _ => hinit, fun h => ?_, fun h => absurd rfl h⟩
    have : P.CHECK_HANDLE (-1) = true := h
    rw [hinit] at this
    cases this
  | append_singleton cs c ih =>
    obtain ⟨iA, iB, iC, iD⟩ := ih (fun x hx => hflags x (List.mem_append_left _ hx))
    have hc := hflags c (by simp)
    have ht := switch_target_values c.data c.mode (run_perf_hints P cs).state hc iA
    have hid : switch_target c.data c.mode (run_perf_hints P cs).state ≠ 0 →
        get_perfd_hint_id P (switch_target c.data c.mode (run_perf_hints P cs).state) ≠ 0 := by
      intro hne
      rcases ht with h | h | h | h
      · exact absurd h hne
      · rw [h, get_perfd_hint_id_sustained]; exact h1
      · rw [h, get_perfd_hint_id_vr]; exact h2
      · rw [h, get_perfd_hint_id_vr_sustained]; exact h3
    rw [run_perf_hints_snoc]
    unfold mode_slot_invariant
    rcases process_perf_hint_cases P c.env c.data c.mode (run_perf_hints P cs).state with
      ⟨-, he⟩ | ⟨-, hr, he⟩ | ⟨-, hr, he⟩
    · simp only [perf_hint_step, he, List.append_nil]
      refine ⟨iA, iB, iC, fun ha hb => ?_⟩
      obtain ⟨c', hc', hint, e1, e2⟩ := iD ha hb
      exact ⟨c', List.mem_append_left _ hc', hint, e1, e2⟩
    · simp only [perf_hint_step, he]
      rw [switch_mode_ret] at hr
      have hbad : get_perfd_hint_id P (switch_target c.data c.mode (run_perf_hints P cs).state)
            ≠ 0 ∧
          P.CHECK_HANDLE (c.env.perf_hint_enable (get_perfd_hint_id P
            (switch_target c.data c.mode (run_perf_hints P cs).state)) 0) = false := by
        by_contra hcon
        exact hr (if_neg hcon)
      rw [switch_mode_eq]
      simp only [hbad.1, ne_eq, not_false_eq_true, if_true]
      refine ⟨iA, fun _ => hbad.2, fun hv => ?_, fun _ _ => ?_⟩
      · rw [hbad.2] at hv; cases hv
      · exact ⟨c, by simp, _, rfl, getLast_append_acquire _ _ _⟩
    · simp only [perf_hint_step, he]
      rw [switch_mode_ret] at hr
      rw [switch_mode_eq]
      by_cases hz : switch_target c.data c.mode (run_perf_hints P cs).state = 0
      · have hid0 : get_perfd_hint_id P
            (switch_target c.data c.mode (run_perf_hints P cs).state) = 0 := by
          rw [hz]; exact get_perfd_hint_id_normal P
        have hslot : P.CHECK_HANDLE
            (if P.CHECK_HANDLE (run_perf_hints P cs).state.perfd_mode_handle = true then -1
              else (run_perf_hints P cs).state.perfd_mode_handle) = false := by
          by_cases hv : P.CHECK_HANDLE (run_perf_hints P cs).state.perfd_mode_handle = true
          · simp [hv, hinit]
          · simp [hv]
        simp only [hid0, ne_eq, not_true_eq_false, if_false]
        refine ⟨ht, fun _ => hslot, fun hv => ?_, fun hn => absurd hz hn⟩
        rw [hslot] at hv; cases hv
      · have hidn := hid hz
        have hgood : P.CHECK_HANDLE (c.env.perf_hint_enable (get_perfd_hint_id P
            (switch_target c.data c.mode (run_perf_hints P cs).state)) 0) = true := by
          by_contra hcon
          have hcon2 : P.CHECK_HANDLE (c.env.perf_hint_enable (get_perfd_hint_id P
            (switch_target c.data c.mode (run_perf_hints P cs).state)) 0) = false := by
            simpa using hcon
          rw [if_pos ⟨hidn, hcon2⟩] at hr
          cases hr
        simp only [hidn, ne_eq, not_false_eq_true, if_true]
        refine ⟨ht, fun h0 => absurd h0 hz, fun _ => getLast_append_acquire _ _ _,
          fun _ hv => ?_⟩
        rw [hgood] at hv; cases hv

/-! ## Lemmas on outstanding handles -/

theorem outstanding_from_append (P : Platform) (a b : List Call) (held : List Int) :
    outstanding_from P held (a ++ b) = outstanding_from P (outstanding_from P held a) b := by
  induction a generalizing held with
  | nil => rfl
  | cons c a ih => cases c <;> simp [outstanding_from, ih]

theorem single_slot_trace_append (P : Platform) (a b : List Call) (held : List Int) :
    single_slot_trace P held (a ++ b) ↔
      single_slot_trace P held a ∧ single_slot_trace P (outstanding_from P held a) b := by
  induction a generalizing held with
  | nil => simp [single_slot_trace, outstanding_from]
  | cons c a ih =>
    have e : (c :: a) ++ b = c :: (a ++ b) := rfl
    rw [e]
    cases c with
    | release_request h =>
      simp only [single_slot_trace, outstanding_from, ih]
      constructor
      · rintro ⟨rfl, h1, h2⟩
        exact ⟨⟨rfl, h1⟩, by simpa using h2⟩
      · rintro ⟨⟨rfl, h1⟩, h2⟩
        exact ⟨rfl, h1, by simpa using h2⟩
    | perf_hint_enable hint d h =>
      simp only [single_slot_trace, outstanding_from, ih]
      constructor
      · rintro ⟨rfl, h1, h2⟩
        exact ⟨⟨rfl, h1⟩, by simpa using h2⟩
      · rintro ⟨⟨rfl, h1⟩, h2⟩
        exact ⟨rfl, h1, by simpa using h2⟩
    | perf_hint_enable_with_type _ _ _ _ => simp only [single_slot_trace, outstanding_from, ih]
    | sysfs_write _ _ _ => simp only [single_slot_trace, outstanding_from, ih]
    | sys_open _ _ => simp only [single_slot_trace, outstanding_from, ih]
    | sys_write _ _ _ => simp only [single_slot_trace, outstanding_from, ih]

theorem single_slot_trace_length (P : Platform) (tr : List Call) (held : List Int)
    (hd : single_slot_trace P held tr) (hl : held.length ≤ 1) :
    (outstanding_from P held tr).length ≤ 1 := by
  induction tr generalizing held with
  | nil => simpa [outstanding_from] using hl
  | cons c tr ih =>
    cases c with
    | release_request h =>
      obtain ⟨rfl, h1⟩ := hd
      simpa [outstanding_from] using ih [] h1 (by simp)
    | perf_hint_enable hint d h =>
      obtain ⟨rfl, h1⟩ := hd
      simp only [outstanding_from, List.nil_append]
      exact ih _ h1 (by split_ifs <;> simp)
    | perf_hint_enable_with_type _ _ _ _ => exact ih held hd hl
    | sysfs_write _ _ _ => exact ih held hd hl
    | sys_open _ _ => exact ih held hd hl
    | sys_write _ _ _ => exact ih held hd hl

theorem switch_mode_discipline (P : Platform) (hinit : P.CHECK_HANDLE (-1) = false) (E : Env)
    (mode : Int) (s : State) :
    single_slot_trace P (slot_handles P s) (switch_mode P E mode s).calls ∧
    outstanding_from P (slot_handles P s) (switch_mode P E mode s).calls =
      slot_handles P (switch_mode P E mode s).state := by
  rw [switch_mode_eq]
  by_cases hv : P.CHECK_HANDLE s.perfd_mode_handle = true <;>
  by_cases hh : get_perfd_hint_id P mode = 0 <;>
  by_cases hr : P.CHECK_HANDLE (E.perf_hint_enable (get_perfd_hint_id P mode) 0) = true <;>
  simp [hv, hh, hr, hinit, slot_handles, single_slot_trace, outstanding_from]

theorem run_switch_mode_discipline (P : Platform) (hinit : P.CHECK_HANDLE (-1) = false)
    (cs : List switch_call) :
    single_slot_trace P [] (run_switch_mode P cs).trace ∧
    outstanding P (run_switch_mode P cs).trace = slot_handles P (run_switch_mode P cs).state := by
  induction cs using List.reverseRecOn with
  | nil =>
    simp [run_switch_mode, single_slot_trace, outstanding, outstanding_from, slot_handles,
      State.init, hinit]
  | append_singleton cs c ih =>
    obtain ⟨ih1, ih2⟩ := ih
    have hd := switch_mode_discipline P hinit c.env c.mode (run_switch_mode P cs).state
    rw [run_switch_mode_snoc]
    simp only [switch_mode_step, outstanding] at ih2 ⊢
    rw [single_slot_trace_append, outstanding_from_append, ih2]
    exact ⟨⟨ih1, hd.1⟩, hd.2⟩

theorem run_perf_hints_as_switch_modes (P : Platform) (cs : List perf_hint_call) :
    ∃ ms : List switch_call,
      (run_perf_hints P cs).trace = (run_switch_mode P ms).trace ∧
      (run_perf_hints P cs).state.perfd_mode_handle =
        (run_switch_mode P ms).state.perfd_mode_handle := by
  induction cs using List.reverseRecOn with
  | nil => exact ⟨[], rfl, rfl⟩
  | append_singleton cs c ih =>
    obtain ⟨ms, htr, hslot⟩ := ih
    rw [run_perf_hints_snoc]
    rcases process_perf_hint_cases P c.env c.data c.mode (run_perf_hints P cs).state with
      ⟨-, he⟩ | ⟨-, -, he⟩ | ⟨-, -, he⟩
    · refine ⟨ms, ?_, ?_⟩
      · simp [perf_hint_step, he, htr]
      · simp [perf_hint_step, he, hslot]
    · have hdep := switch_mode_depends_on_slot P c.env
        (switch_target c.data c.mode (run_perf_hints P cs).state) _ _ hslot
      refine ⟨ms ++ [⟨switch_target c.data c.mode (run_perf_hints P cs).state, c.env⟩], ?_, ?_⟩
      · simp [perf_hint_step, he, htr, run_switch_mode_snoc, switch_mode_step, hdep.1]
      · simp [perf_hint_step, he, run_switch_mode_snoc, switch_mode_step, hdep.2]
    · have hdep := switch_mode_depends_on_slot P c.env
        (switch_target c.data c.mode (run_perf_hints P cs).state) _ _ hslot
      refine ⟨ms ++ [⟨switch_target c.data c.mode (run_perf_hints P cs).state, c.env⟩], ?_, ?_⟩
      · simp [perf_hint_step, he, htr, run_switch_mode_snoc, switch_mode_step, hdep.1]
      · simp [perf_hint_step, he, run_switch_mode_snoc, switch_mode_step, hdep.2]

/-! ## Lemmas on `process_interaction_hint` -/

theorem interaction_hint_cases (P : Platform) (E : Env) (data : Option Pointee) (s : State)
    (hmode : s.current_mode = NORMAL_MODE) :
    process_interaction_hint P E data s =
      if P.calc_timespan_us s.s_previous_boost_timespec E.clock_gettime < 250000 ∧
          interaction_duration data ≤ 750 then (s, [])
      else ({ s with s_previous_boost_timespec := E.clock_gettime,
                     s_previous_duration := interaction_duration data },
            [scroll_boost P E (interaction_duration data)]) := by
  simp [process_interaction_hint, hmode, scroll_boost]

theorem interaction_duration_some (p : Pointee) :
    interaction_duration (some p) = max 100 (min p.as_int 5000) := by
  simp only [interaction_duration, kMinInteractiveDuration, kMaxInteractiveDuration]
  split_ifs <;> omega

theorem interaction_hint_outcomes (P : Platform) (E : Env) (data : Option Pointee) (s : State) :
    process_interaction_hint P E data s = (s, []) ∨
    process_interaction_hint P E data s =
      ({ s with s_previous_boost_timespec := E.clock_gettime,
                s_previous_duration := interaction_duration data },
       [scroll_boost P E (interaction_duration data)]) := by
  by_cases hm : s.current_mode = NORMAL_MODE
  · rw [interaction_hint_cases P E data s hm]
    split_ifs
    · exact Or.inl rfl
    · exact Or.inr rfl
  · left; simp [process_interaction_hint, hm]

/-! ## The mode state machine -/

/-- C1, as stated, fails: after SUSTAINED is enabled with the valid handle 5
and a VR enable whose acquire returns the invalid handle -1, `switch_mode` has
released handle 5 and `process_perf_hint` has left `current_mode` at SUSTAINED,
so `current_mode` is SUSTAINED while the slot holds no valid handle. -/
theorem mode_handle_lost_after_failed_switch_counterexample :
    (∀ c ∈ sustained_then_vr (-1), c.mode = SUSTAINED_MODE ∨ c.mode = VR_MODE) ∧
    (run_perf_hints sample_platform (sustained_then_vr (-1))).state.current_mode =
      SUSTAINED_MODE ∧
    sample_platform.CHECK_HANDLE
      (run_perf_hints sample_platform (sustained_then_vr (-1))).state.perfd_mode_handle = false ∧
    (run_perf_hints sample_platform (sustained_then_vr (-1))).trace =
      [Call.perf_hint_enable 4614 0 5, Call.release_request 5,
       Call.perf_hint_enable 4865 0 (-1)] := by
  decide

/-- C1 (amended): for every sequence of sustained-performance and VR
enable/disable hints from the initial state and every handle the client
returns, after every call: when `current_mode` is NORMAL the slot holds no
valid handle; when the slot holds a valid handle, `current_mode` is SUSTAINED,
VR or VR_SUSTAINED and the handle is the result of the most recent client call,
an acquire with the hint code of the Mode Table entry for `current_mode` and
duration 0; when `current_mode` is not NORMAL and the slot holds no valid
handle, the most recent client call is an acquire that returned the invalid
handle in the slot; and when the client returns only valid handles, the slot
holds a valid handle whenever `current_mode` is not NORMAL. -/
theorem mode_handle_matches_mode (P : Platform) (hinit : P.CHECK_HANDLE (-1) = false)
    (h1 : P.SUSTAINED_PERF_HINT ≠ 0) (h2 : P.VR_MODE_HINT ≠ 0)
    (h3 : P.VR_MODE_SUSTAINED_PERF_HINT ≠ 0) (cs : List perf_hint_call)
    (hflags : ∀ c ∈ cs, c.mode = SUSTAINED_MODE ∨ c.mode = VR_MODE) :
    ((run_perf_hints P cs).state.current_mode = NORMAL_MODE →
      P.CHECK_HANDLE (run_perf_hints P cs).state.perfd_mode_handle = false) ∧
    (P.CHECK_HANDLE (run_perf_hints P cs).state.perfd_mode_handle = true →
      ((run_perf_hints P cs).state.current_mode = SUSTAINED_MODE ∨
        (run_perf_hints P cs).state.current_mode = VR_MODE ∨
        (run_perf_hints P cs).state.current_mode = VR_SUSTAINED_MODE) ∧
      (run_perf_hints P cs).trace.getLast? =
        some (Call.perf_hint_enable
          (get_perfd_hint_id P (run_perf_hints P cs).state.current_mode) 0
          (run_perf_hints P cs).state.perfd_mode_handle)) ∧
    ((run_perf_hints P cs).state.current_mode ≠ NORMAL_MODE →
      P.CHECK_HANDLE (run_perf_hints P cs).state.perfd_mode_handle = false →
      ∃ c ∈ cs, ∃ hint,
        (run_perf_hints P cs).state.perfd_mode_handle = c.env.perf_hint_enable hint 0 ∧
        (run_perf_hints P cs).trace.getLast? =
          some (Call.perf_hint_enable hint 0 (run_perf_hints P cs).state.perfd_mode_handle)) ∧
    ((∀ c ∈ cs, ∀ hint, P.CHECK_HANDLE (c.env.perf_hint_enable hint 0) = true) →
      (run_perf_hints P cs).state.current_mode ≠ NORMAL_MODE →
      P.CHECK_HANDLE (run_perf_hints P cs).state.perfd_mode_handle = true) := by
  obtain ⟨iA, iB, iC, iD⟩ := run_perf_hints_mode_slot P hinit h1 h2 h3 cs hflags
  refine ⟨iB, fun hv => ⟨?_, iC hv⟩, iD, fun hall hn => ?_⟩
  · rcases iA with h | h | h | h
    · rw [iB h] at hv; cases hv
    · exact Or.inl h
    · exact Or.inr (Or.inl h)
    · exact Or.inr (Or.inr (h.trans VR_SUSTAINED_MODE_eq.symm))
  · by_contra hv
    have hv2 : P.CHECK_HANDLE (run_perf_hints P cs).state.perfd_mode_handle = false := by
      simpa using hv
    obtain ⟨c, hc, hint, e1, -⟩ := iD hn hv2
    rw [e1, hall c hc hint] at hv2
    cases hv2

theorem mode_handle_matches_mode_witness :
    sample_platform.CHECK_HANDLE (-1) = false ∧
    (∀ c ∈ sustained_then_vr 6, c.mode = SUSTAINED_MODE ∨ c.mode = VR_MODE) ∧
    (run_perf_hints sample_platform (sustained_then_vr 6)).trace.getLast? =
      some (Call.perf_hint_enable 4865 0 6) :=
  ⟨by decide, by decide,
   ((mode_handle_matches_mode sample_platform (by decide) (by decide) (by decide) (by decide)
      (sustained_then_vr 6) (by decide)).2.1 (by decide)).2.trans (by decide)⟩

/-- C2: for every sequence of `process_perf_hint` calls with mode flag
SUSTAINED_MODE or VR_MODE from the initial state, after every call
`current_mode` is the bitwise OR of exactly those flags whose most recent call
that returned `HINT_HANDLED` was an enable; in particular it is one of 0, 1, 2
and 3.  The two status codes are taken to be distinct. -/
theorem current_mode_is_or_of_enabled_flags (P : Platform)
    (hne : P.HINT_HANDLED ≠ P.HINT_NONE) (cs : List perf_hint_call)
    (hflags : ∀ c ∈ cs, c.mode = SUSTAINED_MODE ∨ c.mode = VR_MODE) :
    (run_perf_hints P cs).state.current_mode =
      c_or (if flag_enabled P SUSTAINED_MODE (run_perf_hints P cs).log then SUSTAINED_MODE else 0)
        (if flag_enabled P VR_MODE (run_perf_hints P cs).log then VR_MODE else 0) ∧
    ((run_perf_hints P cs).state.current_mode = 0 ∨
      (run_perf_hints P cs).state.current_mode = 1 ∨
      (run_perf_hints P cs).state.current_mode = 2 ∨
      (run_perf_hints P cs).state.current_mode = 3) := by
  have key : (run_perf_hints P cs).state.current_mode =
      mode_of (flag_enabled P SUSTAINED_MODE (run_perf_hints P cs).log)
        (flag_enabled P VR_MODE (run_perf_hints P cs).log) := by
    induction cs using List.reverseRecOn with
    | nil =>
      show NORMAL_MODE = mode_of false false
      decide
    | append_singleton cs c ih =>
      have ih := ih (fun x hx => hflags x (List.mem_append_left _ hx))
      have hc := hflags c (by simp)
      rw [run_perf_hints_snoc]
      simp only [perf_hint_step, flag_enabled_snoc]
      rcases hc with hc | hc
      · rw [hc]
        have h := perf_hint_sustained_step P hne c.env c.data (run_perf_hints P cs).state _ _ ih
        simpa [SUSTAINED_MODE, VR_MODE] using h
      · rw [hc]
        have h := perf_hint_vr_step P hne c.env c.data (run_perf_hints P cs).state _ _ ih
        simpa [SUSTAINED_MODE, VR_MODE] using h
  exact ⟨key, key ▸ mode_of_values _ _⟩

theorem current_mode_is_or_of_enabled_flags_witness :
    sample_platform.HINT_HANDLED ≠ sample_platform.HINT_NONE ∧
    (∀ c ∈ sustained_then_vr (-1), c.mode = SUSTAINED_MODE ∨ c.mode = VR_MODE) ∧
    (run_perf_hints sample_platform (sustained_then_vr (-1))).state.current_mode = 1 :=
  ⟨by decide, by decide,
   (current_mode_is_or_of_enabled_flags sample_platform (by decide) (sustained_then_vr (-1))
      (by decide)).1.trans (by decide)⟩

/-- C3: for every sequence of `switch_mode` calls from the initial state and
every handle the client returns, the valid handles acquired and not yet
released are, after every call, exactly the valid handle in the mode handle
slot or none; at every moment there is at most one; every release is given the
one handle outstanding at that moment, so no handle is released twice; every
acquire is made while none is outstanding; one call makes at most one release,
of the stored handle, followed by at most one acquire; and every trace of
sustained/VR hints is the trace of such a sequence of `switch_mode` calls. -/
theorem mode_handle_single_outstanding (P : Platform) (hinit : P.CHECK_HANDLE (-1) = false)
    (cs : List switch_call) :
    outstanding P (run_switch_mode P cs).trace = slot_handles P (run_switch_mode P cs).state ∧
    (∀ pre post, (run_switch_mode P cs).trace = pre ++ post →
      (outstanding P pre).length ≤ 1) ∧
    (∀ pre h post, (run_switch_mode P cs).trace = pre ++ Call.release_request h :: post →
      outstanding P pre = [h]) ∧
    (∀ pre hint d h post,
      (run_switch_mode P cs).trace = pre ++ Call.perf_hint_enable hint d h :: post →
      outstanding P pre = []) ∧
    (∀ (E : Env) (mode : Int) (s : State),
      (switch_mode P E mode s).calls =
        (if P.CHECK_HANDLE s.perfd_mode_handle = true
          then [Call.release_request s.perfd_mode_handle] else []) ++
        (if get_perfd_hint_id P mode ≠ 0
          then [Call.perf_hint_enable (get_perfd_hint_id P mode) 0
                  (E.perf_hint_enable (get_perfd_hint_id P mode) 0)]
          else [])) ∧
    (∀ hs : List perf_hint_call, ∃ ms : List switch_call,
      (run_perf_hints P hs).trace = (run_switch_mode P ms).trace ∧
      (run_perf_hints P hs).state.perfd_mode_handle =
        (run_switch_mode P ms).state.perfd_mode_handle) := by
  obtain ⟨hd, ho⟩ := run_switch_mode_discipline P hinit cs
  refine ⟨ho, ?_, ?_, ?_, ?_, run_perf_hints_as_switch_modes P⟩
  · intro pre post he
    rw [he, single_slot_trace_append] at hd
    exact single_slot_trace_length P pre [] hd.1 (by simp)
  · intro pre h post he
    rw [he, single_slot_trace_append] at hd
    exact hd.2.1
  · intro pre hint d h post he
    rw [he, single_slot_trace_append] at hd
    exact hd.2.1
  · intro E mode s
    rw [switch_mode_eq]

theorem mode_handle_single_outstanding_witness :
    sample_platform.CHECK_HANDLE (-1) = false ∧
    outstanding sample_platform (run_switch_mode sample_platform two_switches).trace = [6] :=
  ⟨by decide,
   (mode_handle_single_outstanding sample_platform (by decide) two_switches).1.trans
      (by decide)⟩

/-- C4: in every state where `current_mode` is SUSTAINED and the mode handle
slot holds a valid handle h, a VR enable hint makes exactly the client calls
release(h) and then acquire(VR_MODE_SUSTAINED_PERF_HINT, 0); when that acquire
returns a valid handle the call returns `HINT_HANDLED`, `current_mode` becomes
VR_SUSTAINED and the slot holds the new handle.  The hint code is taken to be
non-zero. -/
theorem vr_enable_while_sustained (P : Platform) (E : Env) (p : Pointee) (s : State)
    (hmode : s.current_mode = SUSTAINED_MODE)
    (hvalid : P.CHECK_HANDLE s.perfd_mode_handle = true)
    (hcode : P.VR_MODE_SUSTAINED_PERF_HINT ≠ 0) :
    (power_hint_override P E .POWER_HINT_VR_MODE (some p) s).calls =
      [Call.release_request s.perfd_mode_handle,
       Call.perf_hint_enable P.VR_MODE_SUSTAINED_PERF_HINT 0
         (E.perf_hint_enable P.VR_MODE_SUSTAINED_PERF_HINT 0)] ∧
    (P.CHECK_HANDLE (E.perf_hint_enable P.VR_MODE_SUSTAINED_PERF_HINT 0) = true →
      (power_hint_override P E .POWER_HINT_VR_MODE (some p) s).ret = P.HINT_HANDLED ∧
      (power_hint_override P E .POWER_HINT_VR_MODE (some p) s).state =
        { s with current_mode := VR_SUSTAINED_MODE,
                 perfd_mode_handle := E.perf_hint_enable P.VR_MODE_SUSTAINED_PERF_HINT 0 }) := by
  have h12 : c_and 1 2 = 0 := by decide
  have h3 : c_or 1 2 = 3 := by decide
  simp only [power_hint_override, process_perf_hint, hmode, SUSTAINED_MODE, VR_MODE, h12, h3,
    switch_mode, get_perfd_hint_id_vr_sustained, hvalid, VR_SUSTAINED_MODE_eq]
  by_cases hv : P.CHECK_HANDLE (E.perf_hint_enable P.VR_MODE_SUSTAINED_PERF_HINT 0) = true
  · simp [hv, hcode, h3]
  · simp [hv, hcode]

theorem vr_enable_while_sustained_witness :
    sustained_state.current_mode = SUSTAINED_MODE ∧
    (power_hint_override sample_platform (sample_env 7 ⟨1, 0⟩) .POWER_HINT_VR_MODE
      (int_payload 1) sustained_state).calls =
      [Call.release_request 5, Call.perf_hint_enable 4865 0 7] :=
  ⟨by decide,
   (vr_enable_while_sustained sample_platform (sample_env 7 ⟨1, 0⟩) ⟨1, ""⟩ sustained_state
      (by decide) (by decide) (by decide)).1⟩

/-- C5: an enable request whose flag bit is already set in `current_mode`, and
a disable request whose flag bit is already clear, returns `HINT_HANDLED`, makes
no call to the performance client and leaves the whole state, `current_mode`
and the mode handle slot included, unchanged; this holds for every mode flag,
SUSTAINED_MODE and VR_MODE among them. -/
theorem perf_hint_idempotent (P : Platform) (E : Env) (data : Option Pointee) (mode : Int)
    (s : State)
    (hsat : (data.isSome = true ∧ c_and s.current_mode mode ≠ 0) ∨
            (data.isSome = false ∧ c_and s.current_mode mode = 0)) :
    process_perf_hint P E data mode s = ⟨P.HINT_HANDLED, s, []⟩ := by
  rcases hsat with ⟨hd, hb⟩ | ⟨hd, hb⟩
  · simp [process_perf_hint, hd, hb]
  · simp [process_perf_hint, hd, hb]

theorem perf_hint_idempotent_witness :
    process_perf_hint sample_platform (sample_env 7 ⟨1, 0⟩) (int_payload 1) SUSTAINED_MODE
      sustained_state = ⟨0, sustained_state, []⟩ :=
  perf_hint_idempotent sample_platform (sample_env 7 ⟨1, 0⟩) (int_payload 1) SUSTAINED_MODE
    sustained_state (Or.inl ⟨by decide, by decide⟩)

/-- C6: when an enable or disable request needs a mode switch and the acquire
made for the target mode returns an invalid handle, `process_perf_hint` returns
`HINT_NONE` and `current_mode` is what it was; when the switch succeeds it
returns `HINT_HANDLED` with `current_mode` equal to `current_mode | flag`
(enable) or `current_mode & ~flag` (disable); the switch succeeds exactly when
the target mode has no hint code or the acquire returns a valid handle. -/
theorem perf_hint_switch_result (P : Platform) (E : Env) (data : Option Pointee) (mode : Int)
    (s : State)
    (hneed : (data.isSome = true ∧ c_and s.current_mode mode = 0) ∨
             (data.isSome = false ∧ c_and s.current_mode mode ≠ 0)) :
    (get_perfd_hint_id P (switch_target data mode s) ≠ 0 →
      P.CHECK_HANDLE (E.perf_hint_enable (get_perfd_hint_id P (switch_target data mode s)) 0)
        = false →
      (process_perf_hint P E data mode s).ret = P.HINT_NONE ∧
      (process_perf_hint P E data mode s).state.current_mode = s.current_mode) ∧
    ((switch_mode P E (switch_target data mode s) s).ret = 0 →
      (process_perf_hint P E data mode s).ret = P.HINT_HANDLED ∧
      (process_perf_hint P E data mode s).state.current_mode = switch_target data mode s) ∧
    ((switch_mode P E (switch_target data mode s) s).ret = 0 ↔
      (get_perfd_hint_id P (switch_target data mode s) = 0 ∨
       P.CHECK_HANDLE (E.perf_hint_enable (get_perfd_hint_id P (switch_target data mode s)) 0)
        = true)) := by
  have hcm := switch_mode_current_mode P E (switch_target data mode s) s
  have hret := switch_mode_ret P E (switch_target data mode s) s
  refine ⟨?_, ?_, ?_⟩
  · intro hid hbad
    have hr : (switch_mode P E (switch_target data mode s) s).ret = -1 := by
      rw [hret]; simp [hid, hbad]
    rcases hneed with ⟨hd, hb⟩ | ⟨hd, hb⟩
    · have ht : switch_target data mode s = c_or s.current_mode mode := by
        simp [switch_target, hd]
      rw [ht] at hr hcm
      simp [process_perf_hint, hd, hb, hr, hcm]
    · have ht : switch_target data mode s = c_and s.current_mode (c_not mode) := by
        simp [switch_target, hd]
      rw [ht] at hr hcm
      simp [process_perf_hint, hd, hb, hr, hcm]
  · intro hr
    rcases hneed with ⟨hd, hb⟩ | ⟨hd, hb⟩
    · have ht : switch_target data mode s = c_or s.current_mode mode := by
        simp [switch_target, hd]
      rw [ht] at hr hcm ⊢
      simp [process_perf_hint, hd, hb, hr, hcm]
    · have ht : switch_target data mode s = c_and s.current_mode (c_not mode) := by
        simp [switch_target, hd]
      rw [ht] at hr hcm ⊢
      simp [process_perf_hint, hd, hb, hr, hcm]
  · rw [hret]
    by_cases hh : get_perfd_hint_id P (switch_target data mode s) = 0 <;>
    by_cases hv : P.CHECK_HANDLE
      (E.perf_hint_enable (get_perfd_hint_id P (switch_target data mode s)) 0) = true <;>
    simp [hh, hv]

theorem perf_hint_switch_result_witness :
    ((int_payload 1).isSome = true ∧ c_and sustained_state.current_mode VR_MODE = 0) ∧
    (process_perf_hint sample_platform (sample_env (-1) ⟨1, 0⟩) (int_payload 1) VR_MODE
      sustained_state).ret = -1 ∧
    (process_perf_hint sample_platform (sample_env (-1) ⟨1, 0⟩) (int_payload 1) VR_MODE
      sustained_state).state.current_mode = 1 :=
  ⟨⟨by decide, by decide⟩,
   (perf_hint_switch_result sample_platform (sample_env (-1) ⟨1, 0⟩) (int_payload 1) VR_MODE
      sustained_state (Or.inl ⟨by decide, by decide⟩)).1 (by decide) (by decide)⟩

/-! ## Interaction and launch boosts -/

/-- C7: the duration resolved by `process_interaction_hint` is 100 when no
duration is supplied and max(100, min(input_duration, 5000)) for every supplied
input; it always lies in [100, 5000], the input 6000 resolves to 5000 and the
input 50 to 100; and a call that is not a no-op stores this duration and
requests the scroll boost with it. -/
theorem interaction_duration_clamp (P : Platform) (E : Env) (s : State) :
    interaction_duration none = 100 ∧
    (∀ p : Pointee, interaction_duration (some p) = max 100 (min p.as_int 5000)) ∧
    (∀ data, 100 ≤ interaction_duration data ∧ interaction_duration data ≤ 5000) ∧
    interaction_duration (int_payload 6000) = 5000 ∧
    interaction_duration (int_payload 50) = 100 ∧
    (∀ data, process_interaction_hint P E data s = (s, []) ∨
      process_interaction_hint P E data s =
        ({ s with s_previous_boost_timespec := E.clock_gettime,
                  s_previous_duration := interaction_duration data },
         [scroll_boost P E (interaction_duration data)])) := by
  refine ⟨rfl, interaction_duration_some, ?_, by decide, by decide,
    fun data => interaction_hint_outcomes P E data s⟩
  intro data
  cases data with
  | none => exact ⟨by decide, by decide⟩
  | some p => rw [interaction_duration_some p]; omega

/-- C8, as stated, fails: the supplied duration 50 resolves to 100, not to 50,
and from the initial state at clock 1 s the scroll boost is requested with
duration 100. -/
theorem interaction_duration_below_min_counterexample :
    interaction_duration (int_payload 50) = 100 ∧
    (process_interaction_hint sample_platform (sample_env 5 ⟨1, 0⟩) (int_payload 50)
      State.init).2 = [Call.perf_hint_enable_with_type 4224 100 1 5] ∧
    ¬ (∀ d : Int, 0 ≤ d → d < 100 → interaction_duration (int_payload d) = d) := by
  refine ⟨by decide, by decide, ?_⟩
  intro h
  have h50 := h 50 (by decide) (by decide)
  revert h50
  decide

/-- C8 (amended): for every caller-supplied interaction duration d with
d <= 100, in particular 0 <= d < 100, the duration resolved by
`process_interaction_hint` is 100: values below the minimum are raised to the
minimum, and a call that is not a no-op stores 100 and requests the scroll
boost with duration 100. -/
theorem interaction_duration_raised_to_min (P : Platform) (E : Env) (s : State) (p : Pointee)
    (hd : p.as_int ≤ 100) :
    interaction_duration (some p) = 100 ∧
    (process_interaction_hint P E (some p) s = (s, []) ∨
      process_interaction_hint P E (some p) s =
        ({ s with s_previous_boost_timespec := E.clock_gettime, s_previous_duration := 100 },
         [scroll_boost P E 100])) := by
  have h100 : interaction_duration (some p) = 100 := by
    rw [interaction_duration_some]; omega
  refine ⟨h100, ?_⟩
  have h := interaction_hint_outcomes P E (some p) s
  rw [h100] at h
  exact h

theorem interaction_duration_raised_to_min_witness :
    (50 : Int) ≤ 100 ∧ interaction_duration (int_payload 50) = 100 :=
  ⟨by decide,
   (interaction_duration_raised_to_min sample_platform (sample_env 5 ⟨1, 0⟩) State.init
      ⟨50, ""⟩ (by decide)).1⟩

/-- C9, as stated, fails in its last sentence: with the last boost at 10.0 s,
a call at 10.2 s with duration 100 is suppressed and leaves the timestamp
alone, and the call 100 ms later, at 10.3 s, with duration 100 is 300 ms after
the last boost and requests the scroll boost. -/
theorem two_calls_100ms_apart_counterexample :
    boosted_at_10s.current_mode = NORMAL_MODE ∧
    sample_platform.calc_timespan_us ⟨10, 200000000⟩ ⟨10, 300000000⟩ = 100000 ∧
    process_interaction_hint sample_platform (sample_env 5 ⟨10, 200000000⟩) (int_payload 100)
      boosted_at_10s = (boosted_at_10s, []) ∧
    (process_interaction_hint sample_platform (sample_env 5 ⟨10, 300000000⟩) (int_payload 100)
      (process_interaction_hint sample_platform (sample_env 5 ⟨10, 200000000⟩)
        (int_payload 100) boosted_at_10s).1).2 =
      [Call.perf_hint_enable_with_type 4224 100 1 5] := by
  decide

/-- C9 (amended): with `current_mode` NORMAL, for the elapsed time e between the
stored last-boost timestamp and the clock reading and the resolved duration d,
`process_interaction_hint` is suppressed if and only if e < 250000 and
d <= 750: when suppressed it makes no call and leaves the state unchanged,
otherwise it stores the clock reading and d and makes exactly the request
perf_hint_enable_with_type(VENDOR_HINT_SCROLL_BOOST, d, SCROLL_VERTICAL).
Of two calls 100 ms apart the second is suppressed for duration 100 when the
first was not itself suppressed, and proceeds for duration 800. -/
theorem interaction_debounce (P : Platform) (E E2 : Env) (data : Option Pointee) (s : State)
    (hmode : s.current_mode = NORMAL_MODE) :
    (P.calc_timespan_us s.s_previous_boost_timespec E.clock_gettime < 250000 ∧
        interaction_duration data ≤ 750 →
      process_interaction_hint P E data s = (s, [])) ∧
    (¬ (P.calc_timespan_us s.s_previous_boost_timespec E.clock_gettime < 250000 ∧
        interaction_duration data ≤ 750) →
      process_interaction_hint P E data s =
        ({ s with s_previous_boost_timespec := E.clock_gettime,
                  s_previous_duration := interaction_duration data },
         [scroll_boost P E (interaction_duration data)])) ∧
    ((process_interaction_hint P E data s).2 = [] ↔
      (P.calc_timespan_us s.s_previous_boost_timespec E.clock_gettime < 250000 ∧
        interaction_duration data ≤ 750)) ∧
    (P.calc_timespan_us E.clock_gettime E2.clock_gettime = 100000 →
      ((process_interaction_hint P E (int_payload 100) s).2 ≠ [] →
        process_interaction_hint P E2 (int_payload 100)
            (process_interaction_hint P E (int_payload 100) s).1 =
          ((process_interaction_hint P E (int_payload 100) s).1, [])) ∧
      (process_interaction_hint P E2 (int_payload 800)
          (process_interaction_hint P E (int_payload 800) s).1).2 =
        [scroll_boost P E2 800]) := by
  have hc := interaction_hint_cases P E data s hmode
  refine ⟨?_, ?_, ?_, ?_⟩
  · intro h; rw [hc, if_pos h]
  · intro h; rw [hc, if_neg h]
  · rw [hc]; split_ifs with h <;> simp [h]
  · intro hgap
    have h100 : interaction_duration (int_payload 100) = 100 := by decide
    have h800 : interaction_duration (int_payload 800) = 800 := by decide
    constructor
    · intro hfirst
      have hc1 := interaction_hint_cases P E (int_payload 100) s hmode
      rw [hc1] at hfirst ⊢
      split_ifs at hfirst ⊢ with h
      · exact absurd rfl hfirst
      · simp [process_interaction_hint, hmode, hgap, h100]
    · have hc1 := interaction_hint_cases P E (int_payload 800) s hmode
      rw [hc1, h800]
      simp only [show ¬ ((800 : Int) ≤ 750) by decide, and_false, if_false]
      simp [process_interaction_hint, hmode, h800, scroll_boost]

theorem interaction_debounce_witness :
    State.init.current_mode = NORMAL_MODE ∧
    process_interaction_hint sample_platform (sample_env 5 ⟨0, 100000000⟩) (int_payload 100)
      State.init = (State.init, []) :=
  ⟨by decide,
   (interaction_debounce sample_platform (sample_env 5 ⟨0, 100000000⟩)
      (sample_env 5 ⟨0, 200000000⟩) (int_payload 100) State.init (by decide)).1
      ⟨by decide, by decide⟩⟩

/-- C10: whenever `current_mode` is not NORMAL, an interaction hint with any
payload and a launch-start hint with a non-null payload make no external call
and leave the whole state unchanged, and `power_hint_override` returns
`HINT_HANDLED` for both. -/
theorem non_normal_mode_suppresses_boosts (P : Platform) (E : Env) (s : State)
    (data : Option Pointee) (p : Pointee) (hmode : s.current_mode ≠ NORMAL_MODE) :
    process_interaction_hint P E data s = (s, []) ∧
    power_hint_override P E .POWER_HINT_INTERACTION data s = ⟨P.HINT_HANDLED, s, []⟩ ∧
    process_activity_launch_hint P E (some p) s = ⟨P.HINT_HANDLED, s, []⟩ ∧
    power_hint_override P E .POWER_HINT_LAUNCH (some p) s = ⟨P.HINT_HANDLED, s, []⟩ := by
  simp [power_hint_override, process_interaction_hint, process_activity_launch_hint, hmode]

theorem non_normal_mode_suppresses_boosts_witness :
    sustained_state.current_mode ≠ NORMAL_MODE ∧
    power_hint_override sample_platform (sample_env 7 ⟨1, 0⟩) .POWER_HINT_INTERACTION
      (int_payload 800) sustained_state = ⟨0, sustained_state, []⟩ ∧
    power_hint_override sample_platform (sample_env 7 ⟨1, 0⟩) .POWER_HINT_LAUNCH
      (int_payload 1) sustained_state = ⟨0, sustained_state, []⟩ :=
  have h := non_normal_mode_suppresses_boosts sample_platform (sample_env 7 ⟨1, 0⟩)
    sustained_state (int_payload 800) ⟨1, ""⟩ (by decide)
  ⟨by decide, h.2.1, h.2.2.2⟩

/-! ## Launch end, video encode, dispatch and display power -/

/-- C12: for every state, a launch-end hint (null payload) returns
`HINT_HANDLED`, leaves the launch-active flag false and the launch handle slot
invalid, releases the stored launch handle exactly once when it was valid and
makes no external call otherwise; it never acquires and changes nothing but
the launch handle and the launch-active flag.  The cleared slot value -1 is
taken to be invalid. -/
theorem launch_end_releases (P : Platform) (hinit : P.CHECK_HANDLE (-1) = false) (E : Env)
    (s : State) :
    (power_hint_override P E .POWER_HINT_LAUNCH none s).ret = P.HINT_HANDLED ∧
    (power_hint_override P E .POWER_HINT_LAUNCH none s).state =
      { s with launch_handle := if P.CHECK_HANDLE s.launch_handle = true then -1
                                else s.launch_handle,
               launch_mode := 0 } ∧
    (power_hint_override P E .POWER_HINT_LAUNCH none s).calls =
      (if P.CHECK_HANDLE s.launch_handle = true then [Call.release_request s.launch_handle]
       else []) ∧
    (power_hint_override P E .POWER_HINT_LAUNCH none s).state.launch_mode = 0 ∧
    P.CHECK_HANDLE (power_hint_override P E .POWER_HINT_LAUNCH none s).state.launch_handle
      = false ∧
    (power_hint_override P E .POWER_HINT_LAUNCH none s).state.current_mode = s.current_mode ∧
    (power_hint_override P E .POWER_HINT_LAUNCH none s).state.perfd_mode_handle =
      s.perfd_mode_handle := by
  by_cases hv : P.CHECK_HANDLE s.launch_handle = true
  · simp [power_hint_override, process_activity_launch_hint, hv, hinit]
  · simp [power_hint_override, process_activity_launch_hint, hv]

theorem launch_end_releases_witness :
    sample_platform.CHECK_HANDLE (-1) = false ∧
    (power_hint_override sample_platform (sample_env 7 ⟨1, 0⟩) .POWER_HINT_LAUNCH none
      launching_state).calls = [Call.release_request 9] :=
  ⟨by decide,
   (launch_end_releases sample_platform (by decide) (sample_env 7 ⟨1, 0⟩)
      launching_state).2.2.1.trans (by decide)⟩

/-- C13: `process_video_encode_hint` returns `HINT_NONE`, makes no external
call and leaves the whole state, the stored video-encode handle included,
unchanged when the metadata is null, when the governor cannot be read, when
the governor read is not of the interactive family, when parsing fails, and
when the parsed state is neither 0 nor 1. -/
theorem video_encode_not_handled (P : Platform) (E : Env) (metadata : Option Pointee)
    (s : State)
    (h : metadata = none ∨
         E.get_scaling_governor = none ∨
         (∃ g, E.get_scaling_governor = some g ∧ P.is_interactive_governor g = false) ∨
         (∃ md, metadata = some md ∧
            (P.parse_video_encode_metadata md.as_str ⟨0, -1⟩).1 = -1) ∨
         (∃ md, metadata = some md ∧
            (P.parse_video_encode_metadata md.as_str ⟨0, -1⟩).2.state ≠ 1 ∧
            (P.parse_video_encode_metadata md.as_str ⟨0, -1⟩).2.state ≠ 0)) :
    process_video_encode_hint P E metadata s = ⟨P.HINT_NONE, s, []⟩ ∧
    power_hint_override P E .POWER_HINT_VIDEO_ENCODE metadata s = ⟨P.HINT_NONE, s, []⟩ := by
  have key : process_video_encode_hint P E metadata s = ⟨P.HINT_NONE, s, []⟩ := by
    unfold process_video_encode_hint
    rcases h with h | h | ⟨g, hg, hi⟩ | ⟨md, hm, hp⟩ | ⟨md, hm, h1, h0⟩
    · rw [h]
    · cases metadata with
      | none => rfl
      | some md => simp [h]
    · cases metadata with
      | none => rfl
      | some md =>
        simp only [hg, hi]
        split_ifs <;> first | rfl | simp_all
    · rw [hm]
      cases hgov : E.get_scaling_governor with
      | none => rfl
      | some g => simp [hp]
    · rw [hm]
      cases hgov : E.get_scaling_governor with
      | none => rfl
      | some g => simp [h1, h0]
  exact ⟨key, key⟩

theorem video_encode_not_handled_witness :
    (∃ g, (sample_env_governor (some "performance") 5).get_scaling_governor = some g ∧
      sample_platform.is_interactive_governor g = false) ∧
    process_video_encode_hint sample_platform (sample_env_governor (some "performance") 5)
      (str_payload "state=1") State.init = ⟨-1, State.init, []⟩ :=
  ⟨⟨"performance", rfl, by decide⟩,
   (video_encode_not_handled sample_platform (sample_env_governor (some "performance") 5)
      (str_payload "state=1") State.init
      (Or.inr (Or.inr (Or.inl ⟨"performance", rfl, by decide⟩)))).1⟩

/-- C14: for every hint code other than VIDEO_ENCODE, SUSTAINED_PERFORMANCE,
VR_MODE, INTERACTION, LAUNCH and LOW_POWER, and every payload,
`power_hint_override` returns `HINT_NONE`, makes no external call (no
performance-client call, no sysfs write) and leaves every state slot
unchanged. -/
theorem unrecognized_hint_no_effect (P : Platform) (E : Env) (hint : power_hint_t)
    (data : Option Pointee) (s : State)
    (h1 : hint ≠ .POWER_HINT_VIDEO_ENCODE) (h2 : hint ≠ .POWER_HINT_SUSTAINED_PERFORMANCE)
    (h3 : hint ≠ .POWER_HINT_VR_MODE) (h4 : hint ≠ .POWER_HINT_INTERACTION)
    (h5 : hint ≠ .POWER_HINT_LAUNCH) (h6 : hint ≠ .POWER_HINT_LOW_POWER) :
    power_hint_override P E hint data s = ⟨P.HINT_NONE, s, []⟩ := by
  cases hint with
  | POWER_HINT_VIDEO_ENCODE => exact absurd rfl h1
  | POWER_HINT_SUSTAINED_PERFORMANCE => exact absurd rfl h2
  | POWER_HINT_VR_MODE => exact absurd rfl h3
  | POWER_HINT_INTERACTION => exact absurd rfl h4
  | POWER_HINT_LAUNCH => exact absurd rfl h5
  | POWER_HINT_LOW_POWER => exact absurd rfl h6
  | other code => rfl

theorem unrecognized_hint_no_effect_witness :
    power_hint_override sample_platform (sample_env 7 ⟨1, 0⟩) (.other 9) (int_payload 1)
      sustained_state = ⟨-1, sustained_state, []⟩ :=
  unrecognized_hint_no_effect sample_platform (sample_env 7 ⟨1, 0⟩) (.other 9) (int_payload 1)
    sustained_state (by decide) (by decide) (by decide) (by decide) (by decide) (by decide)

/-- C15: for the LOW_POWER hint `power_hint_override` makes exactly one
external call, a sysfs write to the battery-saver control file of the string
N when the payload is null and Y for every non-null payload, returns the
status that write reports, and leaves the state unchanged. -/
theorem low_power_writes_toggle (P : Platform) (E : Env) (p : Pointee) (s : State) :
    power_hint_override P E .POWER_HINT_LOW_POWER none s =
      ⟨E.sysfs_write "/sys/module/battery_saver/parameters/enabled" "N", s,
       [Call.sysfs_write "/sys/module/battery_saver/parameters/enabled" "N"
          (E.sysfs_write "/sys/module/battery_saver/parameters/enabled" "N")]⟩ ∧
    power_hint_override P E .POWER_HINT_LOW_POWER (some p) s =
      ⟨E.sysfs_write "/sys/module/battery_saver/parameters/enabled" "Y", s,
       [Call.sysfs_write "/sys/module/battery_saver/parameters/enabled" "Y"
          (E.sysfs_write "/sys/module/battery_saver/parameters/enabled" "Y")]⟩ :=
  ⟨rfl, rfl⟩

/-- C16: `set_interactive_override` returns `HINT_HANDLED` for every input and
every open and write outcome.  While the latch is unset a call makes exactly
one external call, the open of the display-power file, stores the descriptor
and sets the latch if and only if the descriptor is non-negative, so after a
failed open the next call opens again; while the latch is set a call makes
exactly one external call, a write to the stored descriptor of 1 when `on` is
non-zero and of 0 when `on` is zero, and leaves the state unchanged. -/
theorem display_power_latch (P : Platform) (E E2 : Env) (on_val : Int) (s : State) :
    (set_interactive_override P E on_val s).ret = P.HINT_HANDLED ∧
    (s.init_interactive_hint = 0 →
      (set_interactive_override P E on_val s).calls =
        [Call.sys_open "/sys/kernel/hbtp/display_pwr"
          (E.sys_open "/sys/kernel/hbtp/display_pwr")] ∧
      (set_interactive_override P E on_val s).state =
        { s with display_fd := E.sys_open "/sys/kernel/hbtp/display_pwr",
                 init_interactive_hint :=
                   if 0 ≤ E.sys_open "/sys/kernel/hbtp/display_pwr" then 1 else 0 } ∧
      ((set_interactive_override P E on_val s).state.init_interactive_hint ≠ 0 ↔
        0 ≤ E.sys_open "/sys/kernel/hbtp/display_pwr") ∧
      (E.sys_open "/sys/kernel/hbtp/display_pwr" < 0 →
        (set_interactive_override P E2 on_val (set_interactive_override P E on_val s).state).calls
          = [Call.sys_open "/sys/kernel/hbtp/display_pwr"
              (E2.sys_open "/sys/kernel/hbtp/display_pwr")])) ∧
    (s.init_interactive_hint ≠ 0 →
      (set_interactive_override P E on_val s).calls =
        [Call.sys_write s.display_fd (if on_val ≠ 0 then "1" else "0")
          (E.sys_write s.display_fd (if on_val ≠ 0 then "1" else "0"))] ∧
      (set_interactive_override P E on_val s).state = s) := by
  refine ⟨?_, ?_, ?_⟩
  · by_cases h0 : s.init_interactive_hint = 0 <;>
    by_cases hfd : E.sys_open SYS_DISPLAY_PWR < 0 <;>
    by_cases hon : on_val = 0 <;>
    simp [set_interactive_override, h0, hfd, hon]
  · intro h0
    by_cases hfd : E.sys_open "/sys/kernel/hbtp/display_pwr" < 0
    · have hfd2 : ¬ (0 ≤ E.sys_open "/sys/kernel/hbtp/display_pwr") := not_le.mpr hfd
      simp [set_interactive_override, SYS_DISPLAY_PWR, h0, hfd, hfd2]
      split_ifs <;> rfl
    · have hfd2 : 0 ≤ E.sys_open "/sys/kernel/hbtp/display_pwr" := not_lt.mp hfd
      simp [set_interactive_override, SYS_DISPLAY_PWR, h0, hfd, hfd2]
  · intro h1
    by_cases hon : on_val = 0
    · simp [set_interactive_override, h1, hon]
    · simp [set_interactive_override, h1, hon]

/-- C17: `get_perfd_hint_id` returns the mapped code for SUSTAINED_MODE, VR_MODE
and VR_SUSTAINED_MODE and 0 for every other value, NORMAL_MODE and
INVALID_MODE included; with non-zero table codes it returns 0 exactly for the
values outside the table.  Hence `switch_mode(NORMAL_MODE)` always returns 0,
makes no acquire (its only possible call is the release of a valid stored
handle) and leaves the mode handle slot invalid, and disabling the only
enabled mode flag returns `HINT_HANDLED` and sets `current_mode` to NORMAL
whatever the client would return.  The cleared slot value -1 is taken to be
invalid. -/
theorem normal_mode_needs_no_handle (P : Platform) (hinit : P.CHECK_HANDLE (-1) = false)
    (h1 : P.SUSTAINED_PERF_HINT ≠ 0) (h2 : P.VR_MODE_HINT ≠ 0)
    (h3 : P.VR_MODE_SUSTAINED_PERF_HINT ≠ 0) :
    get_perfd_hint_id P SUSTAINED_MODE = P.SUSTAINED_PERF_HINT ∧
    get_perfd_hint_id P VR_MODE = P.VR_MODE_HINT ∧
    get_perfd_hint_id P VR_SUSTAINED_MODE = P.VR_MODE_SUSTAINED_PERF_HINT ∧
    (∀ m, m ≠ SUSTAINED_MODE → m ≠ VR_MODE → m ≠ VR_SUSTAINED_MODE →
      get_perfd_hint_id P m = 0) ∧
    get_perfd_hint_id P NORMAL_MODE = 0 ∧
    get_perfd_hint_id P INVALID_MODE = 0 ∧
    (∀ m, get_perfd_hint_id P m = 0 ↔
      (m ≠ SUSTAINED_MODE ∧ m ≠ VR_MODE ∧ m ≠ VR_SUSTAINED_MODE)) ∧
    (∀ (E : Env) (s : State),
      (switch_mode P E NORMAL_MODE s).ret = 0 ∧
      (switch_mode P E NORMAL_MODE s).calls =
        (if P.CHECK_HANDLE s.perfd_mode_handle = true
          then [Call.release_request s.perfd_mode_handle] else []) ∧
      P.CHECK_HANDLE (switch_mode P E NORMAL_MODE s).state.perfd_mode_handle = false) ∧
    (∀ (E : Env) (s : State) (flag : Int), (flag = SUSTAINED_MODE ∨ flag = VR_MODE) →
      s.current_mode = flag →
      (process_perf_hint P E none flag s).ret = P.HINT_HANDLED ∧
      (process_perf_hint P E none flag s).state.current_mode = NORMAL_MODE) := by
  have hother : ∀ m, m ≠ SUSTAINED_MODE → m ≠ VR_MODE → m ≠ VR_SUSTAINED_MODE →
      get_perfd_hint_id P m = 0 := by
    intro m a b c
    rw [VR_SUSTAINED_MODE_eq] at c
    exact get_perfd_hint_id_other P m a b c
  have hsw : ∀ (E : Env) (s : State),
      (switch_mode P E NORMAL_MODE s).ret = 0 ∧
      (switch_mode P E NORMAL_MODE s).calls =
        (if P.CHECK_HANDLE s.perfd_mode_handle = true
          then [Call.release_request s.perfd_mode_handle] else []) ∧
      P.CHECK_HANDLE (switch_mode P E NORMAL_MODE s).state.perfd_mode_handle = false := by
    intro E s
    rw [switch_mode_eq]
    have h0 : get_perfd_hint_id P NORMAL_MODE = 0 := get_perfd_hint_id_normal P
    by_cases hv : P.CHECK_HANDLE s.perfd_mode_handle = true
    · simp [h0, hv, hinit]
    · simp [h0, hv]
  refine ⟨get_perfd_hint_id_sustained P, get_perfd_hint_id_vr P, ?_, hother,
    get_perfd_hint_id_normal P, ?_, ?_, hsw, ?_⟩
  · rw [VR_SUSTAINED_MODE_eq]; exact get_perfd_hint_id_vr_sustained P
  · exact get_perfd_hint_id_other P INVALID_MODE (by decide) (by decide) (by decide)
  · intro m
    constructor
    · intro hz
      refine ⟨?_, ?_, ?_⟩
      · rintro rfl; exact h1 ((get_perfd_hint_id_sustained P).symm.trans hz)
      · rintro rfl; exact h2 ((get_perfd_hint_id_vr P).symm.trans hz)
      · rintro rfl
        rw [VR_SUSTAINED_MODE_eq, get_perfd_hint_id_vr_sustained] at hz; exact h3 hz
    · rintro ⟨a, b, c⟩; exact hother m a b c
  · intro E s flag hflag hcm
    have hbit : c_and s.current_mode flag ≠ 0 := by
      rw [hcm]; rcases hflag with rfl | rfl <;> decide
    have ht : switch_target none flag s = NORMAL_MODE := by
      simp only [switch_target, hcm]
      rcases hflag with rfl | rfl <;> decide
    rcases process_perf_hint_cases P E none flag s with ⟨hsat, -⟩ | ⟨-, hr, -⟩ | ⟨-, -, he⟩
    · rcases hsat with ⟨hd, -⟩ | ⟨-, hb⟩
      · cases hd
      · exact absurd hb hbit
    · rw [ht] at hr
      exact absurd (hsw E s).1 hr
    · rw [he, ht]
      exact ⟨rfl, rfl⟩

theorem normal_mode_needs_no_handle_witness :
    sample_platform.CHECK_HANDLE (-1) = false ∧
    (process_perf_hint sample_platform (sample_env (-1) ⟨1, 0⟩) none SUSTAINED_MODE
      sustained_state).state.current_mode = NORMAL_MODE :=
  ⟨by decide,
   ((normal_mode_needs_no_handle sample_platform (by decide) (by decide) (by decide)
      (by decide)).2.2.2.2.2.2.2.2 (sample_env (-1) ⟨1, 0⟩) sustained_state SUSTAINED_MODE
      (Or.inl rfl) (by decide)).2⟩

/-- C18: with a governor of the interactive family and metadata that parses to
state 0, `process_video_encode_hint` makes exactly one external call,
`release_request` on whatever value is stored in the video-encode handle slot,
without checking its validity, returns `HINT_HANDLED` and leaves the whole
state, the slot included, unchanged; so a stop hint in the initial state
releases the value 0, and a second stop hint releases the same value again. -/
theorem video_encode_stop_releases_stored (P : Platform) (E E2 : Env) (md md2 : Pointee)
    (g g2 : String) (s : State)
    (hg : E.get_scaling_governor = some g) (hi : P.is_interactive_governor g = true)
    (hrc : (P.parse_video_encode_metadata md.as_str ⟨0, -1⟩).1 ≠ -1)
    (hst : (P.parse_video_encode_metadata md.as_str ⟨0, -1⟩).2.state = 0)
    (hg2 : E2.get_scaling_governor = some g2) (hi2 : P.is_interactive_governor g2 = true)
    (hrc2 : (P.parse_video_encode_metadata md2.as_str ⟨0, -1⟩).1 ≠ -1)
    (hst2 : (P.parse_video_encode_metadata md2.as_str ⟨0, -1⟩).2.state = 0) :
    process_video_encode_hint P E (some md) s =
      ⟨P.HINT_HANDLED, s, [Call.release_request s.video_encode_handle]⟩ ∧
    power_hint_override P E .POWER_HINT_VIDEO_ENCODE (some md) s =
      ⟨P.HINT_HANDLED, s, [Call.release_request s.video_encode_handle]⟩ ∧
    (process_video_encode_hint P E (some md) State.init).calls = [Call.release_request 0] ∧
    process_video_encode_hint P E2 (some md2) (process_video_encode_hint P E (some md) s).state =
      ⟨P.HINT_HANDLED, s, [Call.release_request s.video_encode_handle]⟩ := by
  have key : ∀ t : State, process_video_encode_hint P E (some md) t =
      ⟨P.HINT_HANDLED, t, [Call.release_request t.video_encode_handle]⟩ := by
    intro t
    simp [process_video_encode_hint, hg, hi, hrc, hst]
  have key2 : ∀ t : State, process_video_encode_hint P E2 (some md2) t =
      ⟨P.HINT_HANDLED, t, [Call.release_request t.video_encode_handle]⟩ := by
    intro t
    simp [process_video_encode_hint, hg2, hi2, hrc2, hst2]
  refine ⟨key s, key s, ?_, ?_⟩
  · rw [key]; rfl
  · rw [key, key2]

theorem video_encode_stop_releases_stored_witness :
    (sample_env 5 ⟨1, 0⟩).get_scaling_governor = some "interactive" ∧
    sample_platform.is_interactive_governor "interactive" = true ∧
    (sample_platform.parse_video_encode_metadata "state=0" ⟨0, -1⟩).2.state = 0 ∧
    process_video_encode_hint sample_platform (sample_env 5 ⟨1, 0⟩) (some ⟨0, "state=0"⟩)
      State.init = ⟨0, State.init, [Call.release_request 0]⟩ :=
  ⟨rfl, by decide, by decide,
   (video_encode_stop_releases_stored sample_platform (sample_env 5 ⟨1, 0⟩)
      (sample_env 6 ⟨2, 0⟩) ⟨0, "state=0"⟩ ⟨0, "state=0"⟩ "interactive" "interactive"
      State.init rfl (by decide) (by decide) (by decide) rfl (by decide) (by decide)
      (by decide)).1⟩

/-- C19 fails on the code: two video-encode start hints answered with the
valid handles 5 and 6 make two acquires with no release between them, so both
handles are outstanding; the slot keeps only 6, the following stop hint
releases 6, and handle 5 stays outstanding. -/
theorem video_encode_second_start_leaks_handle :
    (run_hints sample_platform two_encode_starts_then_stop).trace =
      [Call.perf_hint_enable 4611 0 5, Call.perf_hint_enable 4611 0 6,
       Call.release_request 6] ∧
    outstanding sample_platform
      [Call.perf_hint_enable 4611 0 5, Call.perf_hint_enable 4611 0 6] = [5, 6] ∧
    outstanding sample_platform (run_hints sample_platform two_encode_starts_then_stop).trace
      = [5] ∧
    (run_hints sample_platform two_encode_starts_then_stop).state.video_encode_handle = 6 := by
  decide

/-- C11, as stated, fails: from the initial state, when the acquire of the
first launch-start hint returns the invalid handle -1, the launch-active flag
stays false and the second launch-start hint makes the acquire again, two
acquire calls in all. -/
theorem launch_retry_after_failed_acquire_counterexample :
    State.init.current_mode = NORMAL_MODE ∧ State.init.launch_mode = 0 ∧
    (run_hints sample_platform (two_launch_starts (-1) 7)).trace =
      [Call.perf_hint_enable_with_type 4225 5000 1 (-1),
       Call.perf_hint_enable_with_type 4225 5000 1 7] := by
  decide

/-- C11 (amended): for every state with `current_mode` NORMAL and the
launch-active flag false, the first of two consecutive launch-start hints
makes exactly one external call, the acquire
perf_hint_enable_with_type(VENDOR_HINT_FIRST_LAUNCH_BOOST, 5000, LAUNCH_BOOST_V1);
when that acquire returns a valid handle the first hint returns
`HINT_HANDLED`, the second makes no call, and the two hints make exactly one
acquire; when it returns an invalid handle the first hint returns `HINT_NONE`,
the flag stays false and the second hint makes the acquire again. -/
theorem launch_start_twice (P : Platform) (E1 E2 : Env) (p1 p2 : Pointee) (s : State)
    (hmode : s.current_mode = NORMAL_MODE) (hflag : s.launch_mode = 0) :
    (power_hint_override P E1 .POWER_HINT_LAUNCH (some p1) s).calls = [launch_boost P E1] ∧
    (P.CHECK_HANDLE (E1.perf_hint_enable_with_type P.VENDOR_HINT_FIRST_LAUNCH_BOOST 5000
        P.LAUNCH_BOOST_V1) = true →
      (power_hint_override P E1 .POWER_HINT_LAUNCH (some p1) s).ret = P.HINT_HANDLED ∧
      power_hint_override P E2 .POWER_HINT_LAUNCH (some p2)
          (power_hint_override P E1 .POWER_HINT_LAUNCH (some p1) s).state =
        ⟨P.HINT_HANDLED, (power_hint_override P E1 .POWER_HINT_LAUNCH (some p1) s).state, []⟩ ∧
      (power_hint_override P E1 .POWER_HINT_LAUNCH (some p1) s).calls ++
        (power_hint_override P E2 .POWER_HINT_LAUNCH (some p2)
          (power_hint_override P E1 .POWER_HINT_LAUNCH (some p1) s).state).calls =
        [launch_boost P E1]) ∧
    (P.CHECK_HANDLE (E1.perf_hint_enable_with_type P.VENDOR_HINT_FIRST_LAUNCH_BOOST 5000
        P.LAUNCH_BOOST_V1) = false →
      (power_hint_override P E1 .POWER_HINT_LAUNCH (some p1) s).ret = P.HINT_NONE ∧
      (power_hint_override P E1 .POWER_HINT_LAUNCH (some p1) s).state.launch_mode = 0 ∧
      (power_hint_override P E1 .POWER_HINT_LAUNCH (some p1) s).calls ++
        (power_hint_override P E2 .POWER_HINT_LAUNCH (some p2)
          (power_hint_override P E1 .POWER_HINT_LAUNCH (some p1) s).state).calls =
        [launch_boost P E1, launch_boost P E2]) := by
  by_cases hv : P.CHECK_HANDLE (E1.perf_hint_enable_with_type P.VENDOR_HINT_FIRST_LAUNCH_BOOST
      5000 P.LAUNCH_BOOST_V1) = true
  · simp [power_hint_override, process_activity_launch_hint, hmode, hflag, hv, launch_boost,
      kMaxLaunchDuration]
  · have hv2 : P.CHECK_HANDLE (E1.perf_hint_enable_with_type P.VENDOR_HINT_FIRST_LAUNCH_BOOST
        5000 P.LAUNCH_BOOST_V1) = false := by simpa using hv
    by_cases hw : P.CHECK_HANDLE (E2.perf_hint_enable_with_type
        P.VENDOR_HINT_FIRST_LAUNCH_BOOST 5000 P.LAUNCH_BOOST_V1) = true
    · simp [power_hint_override, process_activity_launch_hint, hmode, hflag, hv2, hw,
        launch_boost, kMaxLaunchDuration]
    · simp [power_hint_override, process_activity_launch_hint, hmode, hflag, hv2, hw,
        launch_boost, kMaxLaunchDuration]

theorem launch_start_twice_witness :
    State.init.current_mode = NORMAL_MODE ∧ State.init.launch_mode = 0 ∧
    (power_hint_override sample_platform (sample_env 7 ⟨1, 0⟩) .POWER_HINT_LAUNCH
      (int_payload 1) State.init).calls = [Call.perf_hint_enable_with_type 4225 5000 1 7] :=
  ⟨by decide, by decide,
   (launch_start_twice sample_platform (sample_env 7 ⟨1, 0⟩) (sample_env 8 ⟨2, 0⟩) ⟨1, ""⟩
      ⟨1, ""⟩ State.init (by decide) (by decide)).1⟩

/-! ## Lemmas on launch handles -/

theorem launch_outstanding_from_append (P : Platform) (a b : List Call) (held : List Int) :
    launch_outstanding_from P held (a ++ b) =
      launch_outstanding_from P (launch_outstanding_from P held a) b := by
  induction a generalizing held with
  | nil => rfl
  | cons c a ih => cases c <;> simp [launch_outstanding_from, ih]

theorem launch_slot_trace_append (P : Platform) (a b : List Call) (held : List Int) :
    launch_slot_trace P held (a ++ b) ↔
      launch_slot_trace P held a ∧ launch_slot_trace P (launch_outstanding_from P held a) b := by
  induction a generalizing held with
  | nil => simp [launch_slot_trace, launch_outstanding_from]
  | cons c a ih =>
    have e : (c :: a) ++ b = c :: (a ++ b) := rfl
    rw [e]
    cases c with
    | release_request h =>
      simp only [launch_slot_trace, launch_outstanding_from, ih]
      constructor
      · rintro ⟨rfl, h1, h2⟩
        exact ⟨⟨rfl, h1⟩, by simpa using h2⟩
      · rintro ⟨⟨rfl, h1⟩, h2⟩
        exact ⟨rfl, h1, by simpa using h2⟩
    | perf_hint_enable_with_type hint d t h =>
      simp only [launch_slot_trace, launch_outstanding_from, ih]
      constructor
      · rintro ⟨rfl, h1, h2⟩
        exact ⟨⟨rfl, h1⟩, by simpa using h2⟩
      · rintro ⟨⟨rfl, h1⟩, h2⟩
        exact ⟨rfl, h1, by simpa using h2⟩
    | perf_hint_enable _ _ _ => simp only [launch_slot_trace, launch_outstanding_from, ih]
    | sysfs_write _ _ _ => simp only [launch_slot_trace, launch_outstanding_from, ih]
    | sys_open _ _ => simp only [launch_slot_trace, launch_outstanding_from, ih]
    | sys_write _ _ _ => simp only [launch_slot_trace, launch_outstanding_from, ih]

theorem launch_slot_trace_length (P : Platform) (tr : List Call) (held : List Int)
    (hd : launch_slot_trace P held tr) (hl : held.length ≤ 1) :
    (launch_outstanding_from P held tr).length ≤ 1 := by
  induction tr generalizing held with
  | nil => simpa [launch_outstanding_from] using hl
  | cons c tr ih =>
    cases c with
    | release_request h =>
      obtain ⟨rfl, h1⟩ := hd
      simpa [launch_outstanding_from] using ih [] h1 (by simp)
    | perf_hint_enable_with_type hint d t h =>
      obtain ⟨rfl, h1⟩ := hd
      simp only [launch_outstanding_from, List.nil_append]
      exact ih _ h1 (by split_ifs <;> simp)
    | perf_hint_enable _ _ _ => exact ih held hd hl
    | sysfs_write _ _ _ => exact ih held hd hl
    | sys_open _ _ => exact ih held hd hl
    | sys_write _ _ _ => exact ih held hd hl

theorem launch_hint_discipline (P : Platform) (hinit : P.CHECK_HANDLE (-1) = false) (E : Env)
    (data : Option Pointee) (s : State)
    (hinv : s.launch_mode ≠ 0 ↔ P.CHECK_HANDLE s.launch_handle = true) :
    launch_slot_trace P (launch_slot_handles P s)
      (process_activity_launch_hint P E data s).calls ∧
    launch_outstanding_from P (launch_slot_handles P s)
      (process_activity_launch_hint P E data s).calls =
      launch_slot_handles P (process_activity_launch_hint P E data s).state ∧
    ((process_activity_launch_hint P E data s).state.launch_mode ≠ 0 ↔
      P.CHECK_HANDLE (process_activity_launch_hint P E data s).state.launch_handle = true) := by
  by_cases hd : data.isNone = true
  · by_cases hv : P.CHECK_HANDLE s.launch_handle = true
    · simp [process_activity_launch_hint, hd, hv, hinit, launch_slot_handles,
        launch_slot_trace, launch_outstanding_from]
    · simp [process_activity_launch_hint, hd, hv, launch_slot_handles, launch_slot_trace,
        launch_outstanding_from]
  · by_cases hm : s.current_mode = NORMAL_MODE
    · by_cases hl : s.launch_mode = 0
      · have hv : ¬ (P.CHECK_HANDLE s.launch_handle = true) := fun h => hinv.mpr h hl
        by_cases hr : P.CHECK_HANDLE (E.perf_hint_enable_with_type
            P.VENDOR_HINT_FIRST_LAUNCH_BOOST kMaxLaunchDuration P.LAUNCH_BOOST_V1) = true
        · simp [process_activity_launch_hint, hd, hm, hl, hv, hr, launch_slot_handles,
            launch_slot_trace, launch_outstanding_from]
        · simp [process_activity_launch_hint, hd, hm, hl, hv, hr, launch_slot_handles,
            launch_slot_trace, launch_outstanding_from]
      · have he : process_activity_launch_hint P E data s = ⟨P.HINT_HANDLED, s, []⟩ := by
          simp [process_activity_launch_hint, hd, hm, hl]
        rw [he]
        exact ⟨trivial, rfl, hinv⟩
    · have he : process_activity_launch_hint P E data s = ⟨P.HINT_HANDLED, s, []⟩ := by
        simp [process_activity_launch_hint, hd, hm]
      rw [he]
      exact ⟨trivial, rfl, hinv⟩

theorem other_hints_keep_launch_state (P : Platform) (E : Env) (hint : power_hint_t)
    (data : Option Pointee) (s : State) (hne : hint ≠ power_hint_t.POWER_HINT_LAUNCH) :
    (power_hint_override P E hint data s).state.launch_handle = s.launch_handle ∧
    (power_hint_override P E hint data s).state.launch_mode = s.launch_mode := by
  have hperf : ∀ mode,
      (process_perf_hint P E data mode s).state.launch_handle = s.launch_handle ∧
      (process_perf_hint P E data mode s).state.launch_mode = s.launch_mode := by
    intro mode
    rcases process_perf_hint_cases P E data mode s with ⟨-, he⟩ | ⟨-, -, he⟩ | ⟨-, -, he⟩
    · rw [he]; exact ⟨rfl, rfl⟩
    · rw [he, switch_mode_eq]; exact ⟨rfl, rfl⟩
    · rw [he, switch_mode_eq]; exact ⟨rfl, rfl⟩
  cases hint with
  | POWER_HINT_VIDEO_ENCODE =>
    simp only [power_hint_override, process_video_encode_hint]
    split
    · exact ⟨rfl, rfl⟩
    · split
      · exact ⟨rfl, rfl⟩
      · split_ifs <;> exact ⟨rfl, rfl⟩
  | POWER_HINT_SUSTAINED_PERFORMANCE => exact hperf SUSTAINED_MODE
  | POWER_HINT_VR_MODE => exact hperf VR_MODE
  | POWER_HINT_INTERACTION =>
    simp only [power_hint_override]
    rcases interaction_hint_outcomes P E data s with he | he
    · rw [he]; exact ⟨rfl, rfl⟩
    · rw [he]; exact ⟨rfl, rfl⟩
  | POWER_HINT_LAUNCH => exact absurd rfl hne
  | POWER_HINT_LOW_POWER => exact ⟨rfl, rfl⟩
  | other code => exact ⟨rfl, rfl⟩

theorem run_hints_snoc (P : Platform) (cs : List hint_call) (c : hint_call) :
    run_hints P (cs ++ [c]) = dispatch_step P (run_hints P cs) c := by
  simp [run_hints, List.foldl_append]

theorem run_hints_launch_discipline (P : Platform) (hinit : P.CHECK_HANDLE (-1) = false)
    (cs : List hint_call) :
    ((run_hints P cs).state.launch_mode ≠ 0 ↔
      P.CHECK_HANDLE (run_hints P cs).state.launch_handle = true) ∧
    launch_slot_trace P [] (run_hints P cs).launch_trace ∧
    launch_outstanding P (run_hints P cs).launch_trace =
      launch_slot_handles P (run_hints P cs).state := by
  induction cs using List.reverseRecOn with
  | nil =>
    simp [run_hints, launch_slot_trace, launch_outstanding, launch_outstanding_from,
      launch_slot_handles, State.init, hinit]
  | append_singleton cs c ih =>
    obtain ⟨i1, i2, i3⟩ := ih
    rw [run_hints_snoc]
    by_cases hl : c.hint = power_hint_t.POWER_HINT_LAUNCH
    · have hd := launch_hint_discipline P hinit c.env c.data (run_hints P cs).state i1
      have hov : power_hint_override P c.env c.hint c.data (run_hints P cs).state =
          process_activity_launch_hint P c.env c.data (run_hints P cs).state := by
        rw [hl]; rfl
      simp only [dispatch_step, hov, hl, if_true, launch_outstanding] at i3 ⊢
      rw [launch_slot_trace_append, launch_outstanding_from_append, i3]
      exact ⟨hd.2.2, ⟨i2, hd.1⟩, hd.2.1⟩
    · have hk := other_hints_keep_launch_state P c.env c.hint c.data (run_hints P cs).state hl
      simp only [dispatch_step, hl, if_false, launch_slot_handles, hk.1, hk.2]
      exact ⟨i1, i2, i3⟩

/-! ## The launch handle along every sequence of hints -/

/-- C20: for every sequence of hints dispatched through `power_hint_override`
from the initial state and every handle the client returns, after every call
the launch-active flag is set if and only if the launch handle slot holds a
valid handle.  Hence the valid launch handles acquired and not yet released
are exactly the valid handle in the slot or none, at every moment there is at
most one, every release by a launch hint is given the one outstanding handle,
every launch acquire is made while none is outstanding and no valid handle is
stored, and after a launch-end hint none is outstanding.  The cleared slot
value -1 is taken to be invalid. -/
theorem launch_flag_iff_valid_handle (P : Platform) (hinit : P.CHECK_HANDLE (-1) = false)
    (cs : List hint_call) :
    ((run_hints P cs).state.launch_mode ≠ 0 ↔
      P.CHECK_HANDLE (run_hints P cs).state.launch_handle = true) ∧
    launch_outstanding P (run_hints P cs).launch_trace =
      launch_slot_handles P (run_hints P cs).state ∧
    (∀ pre post, (run_hints P cs).launch_trace = pre ++ post →
      (launch_outstanding P pre).length ≤ 1) ∧
    (∀ pre h post, (run_hints P cs).launch_trace = pre ++ Call.release_request h :: post →
      launch_outstanding P pre = [h]) ∧
    (∀ pre hint d t h post,
      (run_hints P cs).launch_trace = pre ++ Call.perf_hint_enable_with_type hint d t h :: post →
      launch_outstanding P pre = []) ∧
    (∀ (E : Env) (data : Option Pointee),
      (power_hint_override P E .POWER_HINT_LAUNCH data (run_hints P cs).state).calls =
        [launch_boost P E] →
      P.CHECK_HANDLE (run_hints P cs).state.launch_handle = false) ∧
    (∀ E : Env,
      launch_outstanding P
        (run_hints P (cs ++ [⟨power_hint_t.POWER_HINT_LAUNCH, none, E⟩])).launch_trace = []) := by
  obtain ⟨hiff, hd, ho⟩ := run_hints_launch_discipline P hinit cs
  refine ⟨hiff, ho, ?_, ?_, ?_, ?_, ?_⟩
  · intro pre post he
    rw [he, launch_slot_trace_append] at hd
    exact launch_slot_trace_length P pre [] hd.1 (by simp)
  · intro pre h post he
    rw [he, launch_slot_trace_append] at hd
    exact hd.2.1
  · intro pre hint d t h post he
    rw [he, launch_slot_trace_append] at hd
    exact hd.2.1
  · intro E data hcalls
    by_contra hv
    have hv2 : P.CHECK_HANDLE (run_hints P cs).state.launch_handle = true := by
      simpa using hv
    have hl : (run_hints P cs).state.launch_mode ≠ 0 := hiff.mpr hv2
    revert hcalls
    simp only [power_hint_override, process_activity_launch_hint, launch_boost]
    split_ifs <;> simp
  · intro E
    obtain ⟨-, -, ho2⟩ := run_hints_launch_discipline P hinit
      (cs ++ [⟨power_hint_t.POWER_HINT_LAUNCH, none, E⟩])
    rw [ho2, run_hints_snoc]
    by_cases hv : P.CHECK_HANDLE (run_hints P cs).state.launch_handle = true
    · simp [dispatch_step, power_hint_override, process_activity_launch_hint,
        launch_slot_handles, hv, hinit]
    · simp [dispatch_step, power_hint_override, process_activity_launch_hint,
        launch_slot_handles, hv]

theorem launch_flag_iff_valid_handle_witness :
    sample_platform.CHECK_HANDLE (-1) = false ∧
    launch_outstanding sample_platform
      (run_hints sample_platform (two_launch_starts 7 8)).launch_trace = [7] :=
  ⟨by decide,
   (launch_flag_iff_valid_handle sample_platform (by decide) (two_launch_starts 7 8)).2.1.trans
      (by decide)⟩

end Power845
